import Mathlib

/-! libsurvive IMU tracker (`src/survive_imu.c`)

A shallow embedding of the sensor-fusion scheduler of `survive_imu.c` and the
properties of its specification.

Conventions of the embedding

* `FLT` (a C `double`) is modelled by the exact rationals: no rounding, no NaN, no
  infinities.  The only division whose divisor comes from the caller is the
  division by the tick frequency `timebase_hz`; theorems whose content depends on
  that quotient carry the hypothesis `timebase_hz ≠ 0`.
* An `assert` that fails is a fault: the run stops there and is reported with
  `faulted = true`.
* The functions of `linmath`, `survive_kalman` and the timecode helper are not part
  of this file of the repository.  They are collected in `Externals` and every
  general theorem is stated for an arbitrary `Externals`.
* Every call of the estimator, of the attitude pre-filter and of the warning macro
  is recorded, in program order, in the `log` of the run.
-/

namespace Survive

/-- The floating type of the C code, `FLT`. -/
abbrev FLT := ℚ

/-- Device tick counter (`uint32_t`). -/
abbrev survive_timecode := Nat

/-- Three-vector `FLT[3]`; `x`, `y`, `z` are the entries 0, 1, 2. -/
structure LinmathVec3d where
  x : FLT
  y : FLT
  z : FLT
deriving DecidableEq, Repr

/-- Quaternion `FLT[4]`; `w`, `x`, `y`, `z` are the entries 0, 1, 2, 3. -/
structure LinmathQuat where
  w : FLT
  x : FLT
  y : FLT
  z : FLT
deriving DecidableEq, Repr

/-- Axis-angle with the angle as magnitude, `FLT[3]`. -/
abbrev LinmathAxisAngleMag := LinmathVec3d

/-- Pose: position and orientation quaternion. -/
structure SurvivePose where
  Pos : LinmathVec3d
  Rot : LinmathQuat
deriving DecidableEq, Repr

/-- Velocity: linear part and angular part (axis-angle). -/
structure SurviveVelocity where
  Pos : LinmathVec3d
  AxisAngleRot : LinmathAxisAngleMag
deriving DecidableEq, Repr

/-- One raw IMU sample. -/
structure PoserDataIMU where
  datamask : Nat
  accel : LinmathVec3d
  gyro : LinmathVec3d
  mag : LinmathVec3d
  timecode : survive_timecode
deriving DecidableEq, Repr

/-- The values bound by `survive_attach_configf` / `survive_attach_configi`,
one field per `STATIC_CONFIG_ITEM` of the file. -/
structure SurviveConfig where
  POSE_POSITION_VARIANCE_SEC : FLT
  POSE_ROT_VARIANCE_SEC : FLT
  VELOCITY_POSITION_VARIANCE_SEC : FLT
  VELOCITY_ROT_VARIANCE_SEC : FLT
  IMU_ACC_VARIANCE : FLT
  IMU_GYRO_VARIANCE : FLT
  IMU_MAHONY_VARIANCE : FLT
  USE_OBS_VELOCITY : Int
  OBS_VELOCITY_POSITION_VAR : FLT
  OBS_VELOCITY_ROTATION_VAR : FLT
deriving DecidableEq, Repr

/-- The defaults written in the `STATIC_CONFIG_ITEM` lines. -/
def SurviveConfig.defaults : SurviveConfig where
  POSE_POSITION_VARIANCE_SEC := 1 / 1000
  POSE_ROT_VARIANCE_SEC := 1 / 100
  VELOCITY_POSITION_VARIANCE_SEC := 1
  VELOCITY_ROT_VARIANCE_SEC := 1 / 10
  IMU_ACC_VARIANCE := 1
  IMU_GYRO_VARIANCE := 1 / 1000
  IMU_MAHONY_VARIANCE := -1
  USE_OBS_VELOCITY := 1
  OBS_VELOCITY_POSITION_VAR := 1
  OBS_VELOCITY_ROTATION_VAR := 1 / 1000

/-- The context of a tracked object: here only its configuration. -/
structure SurviveContext where
  config : SurviveConfig
deriving DecidableEq, Repr

/-- The fields of `SurviveObject` read by this file. -/
structure SurviveObject where
  ctx : SurviveContext
  timebase_hz : Int
  imu_freq : Int
deriving DecidableEq, Repr

/-- The transition-model function pointer `F_fn_t`, defunctionalised:
the two models defined in this file, or the null pointer. -/
inductive F_fn_t where
  | null
  | rot_f
  | pos_f
deriving DecidableEq, Repr

/-- The estimator description `survive_kalman_t` (`info` of a state). -/
structure survive_kalman_t where
  dimension_cnt : Nat
  F_fn : F_fn_t
  Q_per_sec : List FLT
  P : List FLT
deriving DecidableEq, Repr

/-- The estimator state `survive_kalman_state_t`. -/
structure survive_kalman_state_t where
  info : survive_kalman_t
  state_cnt : Nat
  state : List FLT
deriving DecidableEq, Repr

/-- The aggregate `SurviveIMUTracker`. -/
structure SurviveIMUTracker where
  so : SurviveObject
  rot : survive_kalman_state_t
  position : survive_kalman_state_t
  rot_Q_per_sec : List FLT
  pos_Q_per_sec : List FLT
  last_data : PoserDataIMU
  imu_kalman_update : survive_timecode
  obs_kalman_update : survive_timecode
  integralFB : LinmathVec3d
  acc_bias : FLT
  acc_var : FLT
  gyro_var : FLT
  mahony_variance : FLT
  obs_variance : FLT
  obs_rot_variance : FLT
  use_obs_velocity : Int
deriving DecidableEq, Repr

/-- The leading covariance term `k->info.P[0]`. -/
def survive_kalman_state_t.P0 (k : survive_kalman_state_t) : FLT :=
  k.info.P.getD 0 0

/-- The collaborators of `survive_imu.c` that live in other files of the
repository: the timecode helper, the estimator primitive and the `linmath`
routines that need square roots or trigonometry. -/
structure Externals where
  survive_timecode_difference : survive_timecode → survive_timecode → Int
  survive_kalman_state_init :
    Nat → F_fn_t → List FLT → Option (List FLT) → Nat → Option (List FLT) → survive_kalman_state_t
  survive_kalman_predict_update_state :
    FLT → survive_kalman_state_t → LinmathVec3d → List FLT → FLT → survive_kalman_state_t
  survive_kalman_get_state : FLT → survive_kalman_state_t → Nat → LinmathVec3d
  magnitude3d : LinmathVec3d → FLT
  quatnormalize : LinmathQuat → LinmathQuat
  quatrotatevector : LinmathQuat → LinmathVec3d → LinmathVec3d
  quatfromaxisanglemag : LinmathAxisAngleMag → LinmathQuat
  quattoaxisanglemag : LinmathQuat → LinmathAxisAngleMag

/-- Which of the two estimator states a call drives. -/
inductive KalmanTarget where
  | rot
  | position
deriving DecidableEq, Repr

/-- What a run does besides changing the tracker, in program order. -/
inductive Event where
  | warn (time_diff : FLT)
  | mahony (q : LinmathQuat) (gyro accel : LinmathVec3d)
  | predict_update (target : KalmanTarget) (t : FLT) (z : LinmathVec3d) (H : List FLT) (R : FLT)
deriving DecidableEq, Repr

/-- The outcome of an integration call: the tracker as the call leaves it (at the
failing assertion when `faulted`), and the events of the call. -/
structure Run where
  tracker : SurviveIMUTracker
  faulted : Bool
  log : List Event
deriving DecidableEq, Repr

/-! ## `linmath` routines that are plain arithmetic -/

/-- Modelled from the spec: `scale3d` of linmath, the vector times a scalar. -/
def scale3d (a : LinmathVec3d) (s : FLT) : LinmathVec3d :=
  ⟨a.x * s, a.y * s, a.z * s⟩

/-- Modelled from the spec: `add3d` of linmath, the componentwise sum. -/
def add3d (a b : LinmathVec3d) : LinmathVec3d :=
  ⟨a.x + b.x, a.y + b.y, a.z + b.z⟩

/-- Modelled from the spec: `cross3d` of linmath, the cross product. -/
def cross3d (a b : LinmathVec3d) : LinmathVec3d :=
  ⟨a.y * b.z - a.z * b.y, a.z * b.x - a.x * b.z, a.x * b.y - a.y * b.x⟩

/-- Modelled from the spec: `quatadd` of linmath, the componentwise sum. -/
def quatadd (a b : LinmathQuat) : LinmathQuat :=
  ⟨a.w + b.w, a.x + b.x, a.y + b.y, a.z + b.z⟩

/-! ## The source functions -/

/-- Proportional gain `prop_gain` of `mahony_ahrs`. -/
def prop_gain : FLT := 1 / 2

/-- Integral gain `int_gain` of `mahony_ahrs`. -/
def int_gain : FLT := 0

/-- The attitude pre-filter `mahony_ahrs`: returns the new `integralFB` and the
new quaternion. -/
def mahony_ahrs (ext : Externals) (tracker : SurviveIMUTracker) (q : LinmathQuat)
    (_gyro _accel : LinmathVec3d) : LinmathVec3d × LinmathQuat :=
  let sample_f : FLT := (tracker.so.imu_freq : FLT)
  let mag_accel := ext.magnitude3d _accel
  let corrected : LinmathVec3d × LinmathVec3d :=
    if mag_accel ≠ 0 then
      let accel := scale3d _accel (1 / mag_accel)
      let v : LinmathVec3d :=
        ⟨q.x * q.z - q.w * q.y, q.w * q.x + q.y * q.z, q.w * q.w - 1 / 2 + q.z * q.z⟩
      let error := cross3d accel v
      let fb : LinmathVec3d × LinmathVec3d :=
        if int_gain > 0 then
          let fb_correction := scale3d error (int_gain * 2 / sample_f)
          let integralFB := add3d tracker.integralFB fb_correction
          (integralFB, add3d _gyro integralFB)
        else (tracker.integralFB, _gyro)
      let error2 := scale3d error (prop_gain * 2)
      (fb.1, add3d fb.2 error2)
    else (tracker.integralFB, _gyro)
  let gyro := scale3d corrected.2 ((1 / 2) / sample_f)
  let correction : LinmathQuat :=
    ⟨-q.x * gyro.x - q.y * gyro.y - q.z * gyro.z,
     q.w * gyro.x + q.y * gyro.z - q.z * gyro.y,
     q.w * gyro.y - q.x * gyro.z + q.z * gyro.x,
     q.w * gyro.z + q.x * gyro.y - q.y * gyro.x⟩
  (corrected.1, ext.quatnormalize (quatadd q correction))

/-- World-frame linear acceleration, `RotateAccel`. -/
def RotateAccel (ext : Externals) (rot : LinmathQuat) (accel : LinmathVec3d) : LinmathVec3d :=
  let rAcc := ext.quatrotatevector rot accel
  let G : LinmathVec3d := ⟨0, 0, -1⟩
  scale3d (add3d rAcc G) (98066 / 10000)

/-- Elapsed time between a timecode and a fused timestamp, in time units:
`survive_timecode_difference(a, b) / (FLT)so->timebase_hz`. -/
def elapsed (ext : Externals) (so : SurviveObject) (a b : survive_timecode) : FLT :=
  (ext.survive_timecode_difference a b : FLT) / (so.timebase_hz : FLT)

/-- The pre-filter block of `survive_imu_tracker_integrate_imu` (the body of
`if (tracker->mahony_variance >= 0)`): the tracker, the value of `time_diff` and the
log after it. -/
def integrate_imu_prefilter (ext : Externals) (tracker : SurviveIMUTracker) (data : PoserDataIMU)
    (time_diff : FLT) (rot : LinmathQuat) (log : List Event) :
    SurviveIMUTracker × FLT × List Event :=
  if tracker.mahony_variance ≥ 0 then
    let pose_rot := rot
    let m := mahony_ahrs ext tracker pose_rot data.gyro data.accel
    let Hr : List FLT := [1, 0]
    let input := ext.quattoaxisanglemag m.2
    let R := tracker.rot.P0 + tracker.mahony_variance
    ({ tracker with
        integralFB := m.1
        rot := ext.survive_kalman_predict_update_state time_diff tracker.rot input Hr R },
     0,
     log ++ [Event.mahony pose_rot data.gyro data.accel,
             Event.predict_update KalmanTarget.rot time_diff input Hr R])
  else (tracker, time_diff, log)

/-- The accelerometer and gyroscope updates of `survive_imu_tracker_integrate_imu`
(from the declaration of `Rv` to the end), on the tracker and `time_diff` left by
the pre-filter block. -/
def integrate_imu_measure (ext : Externals) (tracker : SurviveIMUTracker) (data : PoserDataIMU)
    (time_diff : FLT) (rot : LinmathQuat) (log : List Event) : Run :=
  let Rv0 := tracker.rot.P0 + tracker.acc_var
  let Rv1 := tracker.rot.P0 + tracker.gyro_var
  let rAcc := RotateAccel ext rot data.accel
  let Hp : List FLT := [0, 0, 1]
  let position := ext.survive_kalman_predict_update_state time_diff tracker.position rAcc Hp Rv0
  let Hr : List FLT := [0, 1]
  let rot_vel := ext.quatrotatevector rot data.gyro
  let rot2 := ext.survive_kalman_predict_update_state time_diff tracker.rot rot_vel Hr Rv1
  { tracker := { tracker with
      position := position
      rot := rot2
      imu_kalman_update := data.timecode
      obs_kalman_update := data.timecode }
    faulted := false
    log := log ++ [Event.predict_update KalmanTarget.position time_diff rAcc Hp Rv0,
                   Event.predict_update KalmanTarget.rot time_diff rot_vel Hr Rv1] }

/-- The body of `survive_imu_tracker_integrate_imu` after its two assertions. -/
def integrate_imu_fuse (ext : Externals) (tracker : SurviveIMUTracker) (data : PoserDataIMU)
    (time_diff : FLT) (rot : LinmathQuat) (log : List Event) : Run :=
  let pre := integrate_imu_prefilter ext tracker data time_diff rot log
  integrate_imu_measure ext pre.1 data pre.2.1 rot pre.2.2

/-- Integration of a raw IMU sample, `survive_imu_tracker_integrate_imu`. -/
def survive_imu_tracker_integrate_imu (ext : Externals) (tracker : SurviveIMUTracker)
    (data : PoserDataIMU) : Run :=
  if tracker.last_data.datamask = 0 then
    { tracker := { tracker with
        last_data := data
        imu_kalman_update := data.timecode
        obs_kalman_update := data.timecode }
      faulted := false
      log := [] }
  else
    let time_diff := elapsed ext tracker.so data.timecode tracker.imu_kalman_update
    let aa_rot := ext.survive_kalman_get_state 0 tracker.rot 0
    let rot := ext.quatfromaxisanglemag aa_rot
    if ¬ (time_diff > 0) then
      { tracker := tracker, faulted := true, log := [] }
    else if time_diff > 1 then
      if ¬ (time_diff < 10) then
        { tracker := tracker, faulted := true, log := [Event.warn time_diff] }
      else integrate_imu_fuse ext tracker data time_diff rot [Event.warn time_diff]
    else integrate_imu_fuse ext tracker data time_diff rot []

/-- Extrapolated pose, `survive_imu_tracker_predict`: the new content of `out`. -/
def survive_imu_tracker_predict (ext : Externals) (tracker : SurviveIMUTracker)
    (timecode : survive_timecode) (out : SurvivePose) : SurvivePose :=
  if tracker.position.P0 > 100 ∨ tracker.rot.P0 > 100 then out
  else
    let t := elapsed ext tracker.so timecode tracker.obs_kalman_update
    let Pos := ext.survive_kalman_get_state t tracker.position 0
    let r := ext.survive_kalman_get_state t tracker.rot 0
    { Pos := Pos, Rot := ext.quatfromaxisanglemag r }

/-- The exported `survive_imu_tracker_update`: the tracker after the call and the
new content of `out`. -/
def survive_imu_tracker_update (ext : Externals) (tracker : SurviveIMUTracker)
    (timecode : survive_timecode) (out : SurvivePose) : SurviveIMUTracker × SurvivePose :=
  (tracker, survive_imu_tracker_predict ext tracker timecode out)

/-- The first block of `survive_imu_tracker_integrate_observation`: on an
uninitialized tracker, set the marker and seed both fused timestamps. -/
def observation_seed (tracker : SurviveIMUTracker) (timecode : survive_timecode) :
    SurviveIMUTracker :=
  if tracker.last_data.datamask = 0 then
    { tracker with
      last_data := { tracker.last_data with datamask := 1 }
      imu_kalman_update := timecode
      obs_kalman_update := timecode }
  else tracker

/-- The body of `survive_imu_tracker_integrate_observation` after its assertion. -/
def integrate_observation_fuse (ext : Externals) (timecode : survive_timecode)
    (tracker : SurviveIMUTracker) (pose : SurvivePose) (R : List FLT) (time_diff : FLT) : Run :=
  let H : List FLT := [1, time_diff, time_diff * time_diff / 2]
  let position :=
    ext.survive_kalman_predict_update_state time_diff tracker.position pose.Pos H (R.getD 0 0)
  let aa_rot := ext.quattoaxisanglemag pose.Rot
  let rot :=
    ext.survive_kalman_predict_update_state time_diff tracker.rot aa_rot H (R.getD 1 0)
  { tracker := { tracker with
      position := position
      rot := rot
      imu_kalman_update := timecode
      obs_kalman_update := timecode }
    faulted := false
    log := [Event.predict_update KalmanTarget.position time_diff pose.Pos H (R.getD 0 0),
            Event.predict_update KalmanTarget.rot time_diff aa_rot H (R.getD 1 0)] }

/-- Integration of a pose observation, `survive_imu_tracker_integrate_observation`;
`R` is the array of the two measurement variances. -/
def survive_imu_tracker_integrate_observation (ext : Externals) (timecode : survive_timecode)
    (tracker : SurviveIMUTracker) (pose : SurvivePose) (R : List FLT) : Run :=
  let tracker0 := observation_seed tracker timecode
  let time_diff := elapsed ext tracker0.so timecode tracker0.obs_kalman_update
  if ¬ (time_diff ≥ 0 ∧ time_diff < 10) then
    { tracker := tracker0, faulted := true, log := [] }
  else integrate_observation_fuse ext timecode tracker0 pose R time_diff

/-- The transition model of the orientation state, `rot_f`: the four entries
written to `F`. -/
def rot_f (t : FLT) : List FLT := [1, t, 0, 1]

/-- The transition model of the position state, `pos_f`: the nine entries
written to `F`. -/
def pos_f (t : FLT) : List FLT := [1, t, t * t / 2, 0, 1, t, 0, 0, 1]

/-- Calling a transition-model pointer. -/
def F_fn_t.call : F_fn_t → FLT → List FLT
  | F_fn_t.null, _ => []
  | F_fn_t.rot_f, t => Survive.rot_f t
  | F_fn_t.pos_f, t => Survive.pos_f t

/-- The tracker right after `memset(tracker, 0, sizeof(*tracker))`. -/
def zeroed_tracker (so : SurviveObject) : SurviveIMUTracker where
  so := so
  rot := ⟨⟨0, F_fn_t.null, [], []⟩, 0, []⟩
  position := ⟨⟨0, F_fn_t.null, [], []⟩, 0, []⟩
  rot_Q_per_sec := [0, 0, 0, 0]
  pos_Q_per_sec := [0, 0, 0, 0, 0, 0, 0, 0, 0]
  last_data := ⟨0, ⟨0, 0, 0⟩, ⟨0, 0, 0⟩, ⟨0, 0, 0⟩, 0⟩
  imu_kalman_update := 0
  obs_kalman_update := 0
  integralFB := ⟨0, 0, 0⟩
  acc_bias := 0
  acc_var := 0
  gyro_var := 0
  mahony_variance := 0
  obs_variance := 0
  obs_rot_variance := 0
  use_obs_velocity := 0

/-- Construction, `survive_imu_tracker_init`. -/
def survive_imu_tracker_init (ext : Externals) (so : SurviveObject) : SurviveIMUTracker :=
  let tracker := zeroed_tracker so
  let cfg := so.ctx.config
  let pos_Q := tracker.pos_Q_per_sec.set 8 1
  let pos_Q := pos_Q.set 4 cfg.VELOCITY_POSITION_VARIANCE_SEC
  let rot_Q := tracker.rot_Q_per_sec.set 3 cfg.VELOCITY_ROT_VARIANCE_SEC
  let pos_Q := pos_Q.set 0 cfg.POSE_POSITION_VARIANCE_SEC
  let rot_Q := rot_Q.set 0 cfg.POSE_ROT_VARIANCE_SEC
  { tracker with
    pos_Q_per_sec := pos_Q
    rot_Q_per_sec := rot_Q
    obs_variance := cfg.OBS_VELOCITY_POSITION_VAR
    obs_rot_variance := cfg.OBS_VELOCITY_ROTATION_VAR
    acc_bias := 1
    mahony_variance := cfg.IMU_MAHONY_VARIANCE
    use_obs_velocity := cfg.USE_OBS_VELOCITY
    acc_var := cfg.IMU_ACC_VARIANCE
    gyro_var := cfg.IMU_GYRO_VARIANCE
    rot := ext.survive_kalman_state_init 2 F_fn_t.rot_f rot_Q none 3 none
    position := ext.survive_kalman_state_init 3 F_fn_t.pos_f pos_Q none 3 none }

/-- Instantaneous velocity, `survive_imu_velocity`. -/
def survive_imu_velocity (ext : Externals) (tracker : SurviveIMUTracker) : SurviveVelocity :=
  { Pos := ext.survive_kalman_get_state 0 tracker.position 1
    AxisAngleRot := ext.survive_kalman_get_state 0 tracker.rot 1 }

/-- Integration of a velocity observation, `survive_imu_tracker_integrate_velocity`;
`Rv` is the array of the two measurement variances. -/
def survive_imu_tracker_integrate_velocity (ext : Externals) (tracker : SurviveIMUTracker)
    (timecode : survive_timecode) (Rv : List FLT) (vel : SurviveVelocity) : Run :=
  let H : List FLT := [0, 1, 0]
  let time_diff := elapsed ext tracker.so timecode tracker.obs_kalman_update
  let position :=
    ext.survive_kalman_predict_update_state time_diff tracker.position vel.Pos H (Rv.getD 0 0)
  let rot :=
    ext.survive_kalman_predict_update_state time_diff tracker.rot vel.AxisAngleRot H (Rv.getD 1 0)
  { tracker := { tracker with
      position := position
      rot := rot
      imu_kalman_update := timecode
      obs_kalman_update := timecode }
    faulted := false
    log := [Event.predict_update KalmanTarget.position time_diff vel.Pos H (Rv.getD 0 0),
            Event.predict_update KalmanTarget.rot time_diff vel.AxisAngleRot H (Rv.getD 1 0)] }

/-! ## A reference estimator and sample collaborators

The general theorems below hold for every `Externals`.  To evaluate the model on
concrete inputs, and for the statements about a standard Kalman update, the
estimator primitive is modelled from its contract in the specification. -/

/-- Entry `i` of a three-vector. -/
def LinmathVec3d.get (v : LinmathVec3d) (i : Nat) : FLT :=
  match i with
  | 0 => v.x
  | 1 => v.y
  | _ => v.z

namespace Kalman

/-- Entry `(i, j)` of a row-major `n × n` matrix. -/
def entry (n : Nat) (M : List FLT) (i j : Nat) : FLT := M.getD (i * n + j) 0

/-- The row-major `n × n` matrix with the given entries. -/
def build (n : Nat) (f : Nat → Nat → FLT) : List FLT :=
  (List.range (n * n)).map fun k => f (k / n) (k % n)

/-- The sum of `f k * g k` over `k < n`. -/
def dot (n : Nat) (f g : Nat → FLT) : FLT :=
  ((List.range n).map fun k => f k * g k).sum

/-- Covariance after the predict step: `F P Fᵀ + t Q`. -/
def predict_covariance (n : Nat) (F P Q : List FLT) (t : FLT) : List FLT :=
  build n fun i j =>
    dot n (fun a => entry n F i a) (fun a => dot n (fun b => entry n P a b) (fun b => entry n F j b))
      + t * entry n Q i j

/-- State of one axis after the predict step: entry `i` of `F x`. -/
def predict_axis (n : Nat) (F x : List FLT) (axis i : Nat) : FLT :=
  dot n (fun b => entry n F i b) (fun b => x.getD (axis * n + b) 0)

/-- The vector `P Hᵀ`. -/
def PHt (n : Nat) (P H : List FLT) (i : Nat) : FLT :=
  dot n (fun b => entry n P i b) (fun b => H.getD b 0)

/-- The innovation variance `H P Hᵀ + R`. -/
def innovation_variance (n : Nat) (P H : List FLT) (R : FLT) : FLT :=
  dot n (fun a => H.getD a 0) (fun a => PHt n P H a) + R

/-- The Kalman gain `P Hᵀ / (H P Hᵀ + R)`. -/
def gain (n : Nat) (P H : List FLT) (R : FLT) (i : Nat) : FLT :=
  PHt n P H i / innovation_variance n P H R

/-- Covariance after the update step: `(I - K H) P`. -/
def update_covariance (n : Nat) (P H : List FLT) (R : FLT) : List FLT :=
  build n fun i j =>
    entry n P i j - gain n P H R i * dot n (fun b => H.getD b 0) (fun b => entry n P b j)

/-- Modelled from the spec: `survive_kalman_state_init` of `survive_kalman.c`, which
is not in this file.  A state of `state_cnt` axes with `dims` derivatives each, the
given transition model and per-second process noise; zero covariance and zero state
when none is supplied. -/
def state_init (dims : Nat) (F : F_fn_t) (Q_per_sec : List FLT) (P : Option (List FLT))
    (state_cnt : Nat) (state : Option (List FLT)) : survive_kalman_state_t where
  info :=
    { dimension_cnt := dims
      F_fn := F
      Q_per_sec := Q_per_sec
      P := P.getD (List.replicate (dims * dims) 0) }
  state_cnt := state_cnt
  state := state.getD (List.replicate (state_cnt * dims) 0)

/-- Modelled from the spec: `survive_kalman_predict_update_state` of
`survive_kalman.c`, which is not in this file.  Advances the state by `t` with the
transition model, then folds in one scalar measurement per axis with observation
row `H` and variance `R` (the standard predict/update recursion, the covariance
shared by the axes). -/
def predict_update_state (t : FLT) (k : survive_kalman_state_t) (z : LinmathVec3d)
    (H : List FLT) (R : FLT) : survive_kalman_state_t :=
  let n := k.info.dimension_cnt
  let F := k.info.F_fn.call t
  let P1 := predict_covariance n F k.info.P k.info.Q_per_sec t
  let K := gain n P1 H R
  let x1 := predict_axis n F k.state
  let state := (List.range (k.state_cnt * n)).map fun idx =>
    let axis := idx / n
    let i := idx % n
    x1 axis i + K i * (z.get axis - dot n (fun b => H.getD b 0) (fun b => x1 axis b))
  { k with
    info := { k.info with P := update_covariance n P1 H R }
    state := state }

/-- Modelled from the spec: `survive_kalman_get_state` of `survive_kalman.c`, which
is not in this file.  Extrapolates by `t` without changing the state and returns
derivative `idx` of each axis. -/
def get_state (t : FLT) (k : survive_kalman_state_t) (idx : Nat) : LinmathVec3d :=
  let n := k.info.dimension_cnt
  let F := k.info.F_fn.call t
  ⟨predict_axis n F k.state 0 idx, predict_axis n F k.state 1 idx, predict_axis n F k.state 2 idx⟩

end Kalman

/-- Modelled from the spec: `quatrotatevector` of linmath, the rotation of a
vector by a unit quaternion, `v + 2 w (u × v) + 2 u × (u × v)` with `u` the
vector part. -/
def quatrotatevector (q : LinmathQuat) (v : LinmathVec3d) : LinmathVec3d :=
  let u : LinmathVec3d := ⟨q.x, q.y, q.z⟩
  let uv := cross3d u v
  add3d v (add3d (scale3d uv (2 * q.w)) (scale3d (cross3d u uv) 2))

/-- Sample collaborators for evaluating the model: a signed tick difference, the
reference estimator, the exact rotation of a vector, and rational stand-ins for
the routines that need a square root or trigonometry (the 1-norm for the
magnitude, first-order conversions between axis-angle and quaternion, and no
rescaling in `quatnormalize`).  The stand-ins are exact on axis-aligned vectors,
the zero axis-angle and the identity quaternion. -/
def sample_externals : Externals where
  survive_timecode_difference a b := (a : Int) - (b : Int)
  survive_kalman_state_init := Kalman.state_init
  survive_kalman_predict_update_state := Kalman.predict_update_state
  survive_kalman_get_state := Kalman.get_state
  magnitude3d v := |v.x| + |v.y| + |v.z|
  quatnormalize q := q
  quatrotatevector := quatrotatevector
  quatfromaxisanglemag aa := ⟨1, aa.x / 2, aa.y / 2, aa.z / 2⟩
  quattoaxisanglemag q := ⟨2 * q.x, 2 * q.y, 2 * q.z⟩

/-- A sample tracked object: default configuration, 48 MHz ticks, 1 kHz IMU. -/
def sample_object : SurviveObject where
  ctx := ⟨SurviveConfig.defaults⟩
  timebase_hz := 48000000
  imu_freq := 1000

/-- The freshly constructed sample tracker. -/
def sample_tracker : SurviveIMUTracker :=
  survive_imu_tracker_init sample_externals sample_object

/-- The trackers reachable from construction by integration calls that return
without fault. -/
inductive Reachable (ext : Externals) (so : SurviveObject) : SurviveIMUTracker → Prop where
  | init : Reachable ext so (survive_imu_tracker_init ext so)
  | imu (t : SurviveIMUTracker) (d : PoserDataIMU) :
      Reachable ext so t →
      (survive_imu_tracker_integrate_imu ext t d).faulted = false →
      Reachable ext so (survive_imu_tracker_integrate_imu ext t d).tracker
  | observation (t : SurviveIMUTracker) (tc : survive_timecode) (pose : SurvivePose)
      (R : List FLT) :
      Reachable ext so t →
      (survive_imu_tracker_integrate_observation ext tc t pose R).faulted = false →
      Reachable ext so (survive_imu_tracker_integrate_observation ext tc t pose R).tracker
  | velocity (t : SurviveIMUTracker) (tc : survive_timecode) (Rv : List FLT)
      (vel : SurviveVelocity) :
      Reachable ext so t →
      (survive_imu_tracker_integrate_velocity ext t tc Rv vel).faulted = false →
      Reachable ext so (survive_imu_tracker_integrate_velocity ext t tc Rv vel).tracker

/-- The elapsed time a logged estimator call was given; none for the other events. -/
def Event.elapsed? : Event → Option FLT
  | Event.predict_update _ t _ _ _ => some t
  | _ => none

/-- The elapsed times handed to the estimator during a run, in program order. -/
def predict_times (log : List Event) : List FLT := log.filterMap Event.elapsed?

/-- Whether an event is the dropped-packet warning. -/
def Event.isWarn : Event → Bool
  | Event.warn _ => true
  | _ => false

/-- Whether an event is a run of the attitude pre-filter. -/
def Event.isMahony : Event → Bool
  | Event.mahony _ _ _ => true
  | _ => false

/-- A sample IMU reading: at rest, one g along the up axis. -/
def sample_imu (timecode : survive_timecode) : PoserDataIMU where
  datamask := 3
  accel := ⟨0, 0, 1⟩
  gyro := ⟨0, 0, 0⟩
  mag := ⟨0, 0, 0⟩
  timecode := timecode

/-- A sample pose observation: one unit along the first axis, identity rotation. -/
def sample_pose : SurvivePose := ⟨⟨1, 0, 0⟩, ⟨1, 0, 0, 0⟩⟩

/-- A sample velocity observation: one unit per time unit along the first axis. -/
def sample_velocity : SurviveVelocity := ⟨⟨1, 0, 0⟩, ⟨0, 0, 0⟩⟩

/-- The sample tracker with the leading covariance terms of its two states replaced. -/
def sample_tracker_with_P0 (pos_P0 rot_P0 : FLT) : SurviveIMUTracker :=
  { sample_tracker with
    position := { sample_tracker.position with
      info := { sample_tracker.position.info with P := sample_tracker.position.info.P.set 0 pos_P0 } }
    rot := { sample_tracker.rot with
      info := { sample_tracker.rot.info with P := sample_tracker.rot.info.P.set 0 rot_P0 } } }

/-- The sample tracker in the Tracking state: after its first IMU sample at the
given timecode. -/
def sample_tracking (timecode : survive_timecode) : SurviveIMUTracker :=
  (survive_imu_tracker_integrate_imu sample_externals sample_tracker (sample_imu timecode)).tracker

/-- The sample tracker after a first pose observation at the given timecode. -/
def sample_observed (timecode : survive_timecode) : SurviveIMUTracker :=
  (survive_imu_tracker_integrate_observation sample_externals timecode sample_tracker
    sample_pose [1, 1]).tracker

/-- The sample tracker with the given leading covariance terms, in the Tracking
state after a first IMU sample at timecode 0. -/
def sample_tracking_with_P0 (pos_P0 rot_P0 : FLT) : SurviveIMUTracker :=
  (survive_imu_tracker_integrate_imu sample_externals (sample_tracker_with_P0 pos_P0 rot_P0)
    (sample_imu 0)).tracker

/-- The sample tracker in the Tracking state since timecode 0, with the Mahony
variance set to the given value. -/
def sample_tracking_mahony (mahony_variance : FLT) : SurviveIMUTracker :=
  { sample_tracking 0 with mahony_variance := mahony_variance }

/-- Modelled from the spec: the Hamilton product of two quaternions (the "standard
quaternion-derivative update" integrates `q ⊗ (0, g)` onto `q`). -/
def quatmul (a b : LinmathQuat) : LinmathQuat :=
  ⟨a.w * b.w - a.x * b.x - a.y * b.y - a.z * b.z,
   a.w * b.x + a.x * b.w + a.y * b.z - a.z * b.y,
   a.w * b.y - a.x * b.z + a.y * b.w + a.z * b.x,
   a.w * b.z + a.x * b.y - a.y * b.x + a.z * b.w⟩

/-- The pure quaternion `(0, g)` of a three-vector. -/
def pure_quat (g : LinmathVec3d) : LinmathQuat := ⟨0, g.x, g.y, g.z⟩

/-- Modelled from the spec: `quatgetconjugate` of linmath; the inverse of a unit
quaternion. -/
def quatgetconjugate (q : LinmathQuat) : LinmathQuat := ⟨q.w, -q.x, -q.y, -q.z⟩

/-- The four-component dot product of two quaternions. -/
def quat_dot (a b : LinmathQuat) : FLT := a.w * b.w + a.x * b.x + a.y * b.y + a.z * b.z

/-- The squared norm of a quaternion. -/
def quat_normsq (q : LinmathQuat) : FLT := quat_dot q q

/-- Modelled from the spec: `quatscale` of linmath, the quaternion times a scalar. -/
def quatscale (q : LinmathQuat) (s : FLT) : LinmathQuat := ⟨q.w * s, q.x * s, q.y * s, q.z * s⟩

/-- The reference direction `v` computed in `mahony_ahrs` from the quaternion. -/
def mahony_reference (q : LinmathQuat) : LinmathVec3d :=
  ⟨q.x * q.z - q.w * q.y, q.w * q.x + q.y * q.z, q.w * q.w - 1 / 2 + q.z * q.z⟩

/-- The scaled gyro vector `mahony_ahrs` integrates: the gyro, corrected by the
doubled proportional gain times the attitude error when the accelerometer magnitude
`mag` is not zero, times `0.5 / imu_freq`. -/
def mahony_rate (tracker : SurviveIMUTracker) (q : LinmathQuat) (gyro accel : LinmathVec3d)
    (mag : FLT) : LinmathVec3d :=
  scale3d
    (if mag ≠ 0 then
      add3d gyro (scale3d (cross3d (scale3d accel (1 / mag)) (mahony_reference q)) (2 * (1 / 2)))
     else gyro)
    ((1 / 2) / (tracker.so.imu_freq : FLT))

/-- The correction quaternion `mahony_ahrs` adds to `q`, written as the source
writes it, for a scaled gyro vector. -/
def mahony_correction (q : LinmathQuat) (gyro : LinmathVec3d) : LinmathQuat :=
  ⟨-q.x * gyro.x - q.y * gyro.y - q.z * gyro.z,
   q.w * gyro.x + q.y * gyro.z - q.z * gyro.y,
   q.w * gyro.y - q.x * gyro.z + q.z * gyro.x,
   q.w * gyro.z + q.x * gyro.y - q.y * gyro.x⟩

/-- A row-major `n × n` array read as a matrix. -/
def to_matrix (n : Nat) (M : List FLT) : Matrix (Fin n) (Fin n) FLT :=
  fun i j => M.getD (i.val * n + j.val) 0

/-- The identity quaternion. -/
def quat_identity : LinmathQuat := ⟨1, 0, 0, 0⟩

/-- A sample IMU reading whose `datamask` field is 0. -/
def sample_imu_unmasked (timecode : survive_timecode) : PoserDataIMU :=
  { sample_imu timecode with datamask := 0 }

/-- The square root of a non-negative rational whose numerator and denominator are
perfect squares (the integer square roots otherwise). -/
def rat_sqrt (r : FLT) : FLT := (Nat.sqrt r.num.natAbs : FLT) / (Nat.sqrt r.den : FLT)

/-- Modelled from the spec: `quatnormalize` of linmath, the quaternion divided by
its magnitude; exact on quaternions of rational magnitude. -/
def sample_quatnormalize (q : LinmathQuat) : LinmathQuat :=
  quatscale q (1 / rat_sqrt (quat_normsq q))

/-- The sample collaborators with the Euclidean magnitude and the renormalization
computed through `rat_sqrt`: exact on inputs of rational magnitude. -/
def sample_externals_normalizing : Externals :=
  { sample_externals with
    magnitude3d := fun v => rat_sqrt (v.x * v.x + v.y * v.y + v.z * v.z)
    quatnormalize := sample_quatnormalize }

/-! ## Theorems -/

/-- The seeding path of the IMU entry point. -/
theorem integrate_imu_first (ext : Externals) (t : SurviveIMUTracker) (d : PoserDataIMU)
    (h : t.last_data.datamask = 0) :
    survive_imu_tracker_integrate_imu ext t d =
      { tracker := { t with
          last_data := d
          imu_kalman_update := d.timecode
          obs_kalman_update := d.timecode }
        faulted := false
        log := [] } := by
  unfold survive_imu_tracker_integrate_imu
  rw [if_pos h]

/-- The IMU entry point when `assert(time_diff > 0)` fails. -/
theorem integrate_imu_nonpositive (ext : Externals) (t : SurviveIMUTracker) (d : PoserDataIMU)
    (h : t.last_data.datamask ≠ 0)
    (hdt : ¬ elapsed ext t.so d.timecode t.imu_kalman_update > 0) :
    survive_imu_tracker_integrate_imu ext t d = { tracker := t, faulted := true, log := [] } := by
  unfold survive_imu_tracker_integrate_imu
  rw [if_neg h]
  simp only [hdt, not_false_eq_true, if_true]

/-- The IMU entry point when `assert(time_diff < 10)` fails. -/
theorem integrate_imu_too_long (ext : Externals) (t : SurviveIMUTracker) (d : PoserDataIMU)
    (h : t.last_data.datamask ≠ 0)
    (hdt : elapsed ext t.so d.timecode t.imu_kalman_update > 0)
    (h1 : elapsed ext t.so d.timecode t.imu_kalman_update > 1)
    (h10 : ¬ elapsed ext t.so d.timecode t.imu_kalman_update < 10) :
    survive_imu_tracker_integrate_imu ext t d =
      { tracker := t, faulted := true,
        log := [Event.warn (elapsed ext t.so d.timecode t.imu_kalman_update)] } := by
  unfold survive_imu_tracker_integrate_imu
  rw [if_neg h]
  simp only [hdt, h1, h10, not_true_eq_false, not_false_eq_true, if_true, if_false]

/-- The IMU entry point when it warns and goes on. -/
theorem integrate_imu_warned (ext : Externals) (t : SurviveIMUTracker) (d : PoserDataIMU)
    (h : t.last_data.datamask ≠ 0)
    (hdt : elapsed ext t.so d.timecode t.imu_kalman_update > 0)
    (h1 : elapsed ext t.so d.timecode t.imu_kalman_update > 1)
    (h10 : elapsed ext t.so d.timecode t.imu_kalman_update < 10) :
    survive_imu_tracker_integrate_imu ext t d =
      integrate_imu_fuse ext t d (elapsed ext t.so d.timecode t.imu_kalman_update)
        (ext.quatfromaxisanglemag (ext.survive_kalman_get_state 0 t.rot 0))
        [Event.warn (elapsed ext t.so d.timecode t.imu_kalman_update)] := by
  unfold survive_imu_tracker_integrate_imu
  rw [if_neg h]
  simp only [hdt, h1, h10, not_true_eq_false, if_true, if_false]

/-- The IMU entry point when the elapsed time is at most one time unit. -/
theorem integrate_imu_plain (ext : Externals) (t : SurviveIMUTracker) (d : PoserDataIMU)
    (h : t.last_data.datamask ≠ 0)
    (hdt : elapsed ext t.so d.timecode t.imu_kalman_update > 0)
    (h1 : ¬ elapsed ext t.so d.timecode t.imu_kalman_update > 1) :
    survive_imu_tracker_integrate_imu ext t d =
      integrate_imu_fuse ext t d (elapsed ext t.so d.timecode t.imu_kalman_update)
        (ext.quatfromaxisanglemag (ext.survive_kalman_get_state 0 t.rot 0)) [] := by
  unfold survive_imu_tracker_integrate_imu
  rw [if_neg h]
  simp only [hdt, h1, not_true_eq_false, if_false]

/-- The fusing body never faults. -/
theorem integrate_imu_fuse_faulted (ext : Externals) (t : SurviveIMUTracker) (d : PoserDataIMU)
    (dt : FLT) (rot : LinmathQuat) (log : List Event) :
    (integrate_imu_fuse ext t d dt rot log).faulted = false := rfl

/-- The fusing body sets both fused timestamps to the timecode of the sample. -/
theorem integrate_imu_fuse_clock (ext : Externals) (t : SurviveIMUTracker) (d : PoserDataIMU)
    (dt : FLT) (rot : LinmathQuat) (log : List Event) :
    (integrate_imu_fuse ext t d dt rot log).tracker.imu_kalman_update = d.timecode ∧
    (integrate_imu_fuse ext t d dt rot log).tracker.obs_kalman_update = d.timecode :=
  ⟨rfl, rfl⟩

/-- The seeding block keeps the tracked object. -/
theorem observation_seed_so (t : SurviveIMUTracker) (tc : survive_timecode) :
    (observation_seed t tc).so = t.so := by
  unfold observation_seed
  split_ifs <;> rfl

/-- The seeding block keeps both estimator states. -/
theorem observation_seed_states (t : SurviveIMUTracker) (tc : survive_timecode) :
    (observation_seed t tc).position = t.position ∧ (observation_seed t tc).rot = t.rot := by
  unfold observation_seed
  split_ifs <;> exact ⟨rfl, rfl⟩

/-- The observation timestamp after the seeding block. -/
theorem observation_seed_clock (t : SurviveIMUTracker) (tc : survive_timecode) :
    (observation_seed t tc).obs_kalman_update =
      if t.last_data.datamask = 0 then tc else t.obs_kalman_update := by
  unfold observation_seed
  split_ifs <;> rfl

/-- The pose-observation entry point when its assertion fails. -/
theorem integrate_observation_fault (ext : Externals) (tc : survive_timecode)
    (t : SurviveIMUTracker) (pose : SurvivePose) (R : List FLT)
    (h : ¬ (elapsed ext (observation_seed t tc).so tc (observation_seed t tc).obs_kalman_update ≥ 0 ∧
           elapsed ext (observation_seed t tc).so tc (observation_seed t tc).obs_kalman_update < 10)) :
    survive_imu_tracker_integrate_observation ext tc t pose R =
      { tracker := observation_seed t tc, faulted := true, log := [] } := by
  unfold survive_imu_tracker_integrate_observation
  simp only [h, not_false_eq_true, if_true]

/-- The pose-observation entry point when its assertion holds. -/
theorem integrate_observation_ok (ext : Externals) (tc : survive_timecode)
    (t : SurviveIMUTracker) (pose : SurvivePose) (R : List FLT)
    (h : elapsed ext (observation_seed t tc).so tc (observation_seed t tc).obs_kalman_update ≥ 0 ∧
         elapsed ext (observation_seed t tc).so tc (observation_seed t tc).obs_kalman_update < 10) :
    survive_imu_tracker_integrate_observation ext tc t pose R =
      integrate_observation_fuse ext tc (observation_seed t tc) pose R
        (elapsed ext (observation_seed t tc).so tc (observation_seed t tc).obs_kalman_update) := by
  unfold survive_imu_tracker_integrate_observation
  simp only [h, and_self, not_true_eq_false, if_false]

/-- C1: after any IMU, pose-observation or velocity integration call that returns
without fault, both fused timestamps equal the timecode just integrated; hence they
are equal in every tracker reachable from construction by such calls. -/
theorem fused_clock_invariant (ext : Externals) :
    (∀ (t : SurviveIMUTracker) (d : PoserDataIMU),
      (survive_imu_tracker_integrate_imu ext t d).faulted = false →
      (survive_imu_tracker_integrate_imu ext t d).tracker.imu_kalman_update = d.timecode ∧
      (survive_imu_tracker_integrate_imu ext t d).tracker.obs_kalman_update = d.timecode) ∧
    (∀ (tc : survive_timecode) (t : SurviveIMUTracker) (pose : SurvivePose) (R : List FLT),
      (survive_imu_tracker_integrate_observation ext tc t pose R).faulted = false →
      (survive_imu_tracker_integrate_observation ext tc t pose R).tracker.imu_kalman_update = tc ∧
      (survive_imu_tracker_integrate_observation ext tc t pose R).tracker.obs_kalman_update = tc) ∧
    (∀ (t : SurviveIMUTracker) (tc : survive_timecode) (Rv : List FLT) (vel : SurviveVelocity),
      (survive_imu_tracker_integrate_velocity ext t tc Rv vel).faulted = false →
      (survive_imu_tracker_integrate_velocity ext t tc Rv vel).tracker.imu_kalman_update = tc ∧
      (survive_imu_tracker_integrate_velocity ext t tc Rv vel).tracker.obs_kalman_update = tc) ∧
    (∀ (so : SurviveObject) (t : SurviveIMUTracker),
      Reachable ext so t → t.imu_kalman_update = t.obs_kalman_update) := by
  have himu : ∀ (t : SurviveIMUTracker) (d : PoserDataIMU),
      (survive_imu_tracker_integrate_imu ext t d).faulted = false →
      (survive_imu_tracker_integrate_imu ext t d).tracker.imu_kalman_update = d.timecode ∧
      (survive_imu_tracker_integrate_imu ext t d).tracker.obs_kalman_update = d.timecode := by
    intro t d
    by_cases h : t.last_data.datamask = 0
    · rw [integrate_imu_first ext t d h]
      exact fun _ => ⟨rfl, rfl⟩
    · by_cases hdt : elapsed ext t.so d.timecode t.imu_kalman_update > 0
      · by_cases h1 : elapsed ext t.so d.timecode t.imu_kalman_update > 1
        · by_cases h10 : elapsed ext t.so d.timecode t.imu_kalman_update < 10
          · rw [integrate_imu_warned ext t d h hdt h1 h10]
            exact fun _ => integrate_imu_fuse_clock ext t d _ _ _
          · rw [integrate_imu_too_long ext t d h hdt h1 h10]
            exact fun hf => Bool.noConfusion hf
        · rw [integrate_imu_plain ext t d h hdt h1]
          exact fun _ => integrate_imu_fuse_clock ext t d _ _ _
      · rw [integrate_imu_nonpositive ext t d h hdt]
        exact fun hf => Bool.noConfusion hf
  have hobs : ∀ (tc : survive_timecode) (t : SurviveIMUTracker) (pose : SurvivePose)
      (R : List FLT),
      (survive_imu_tracker_integrate_observation ext tc t pose R).faulted = false →
      (survive_imu_tracker_integrate_observation ext tc t pose R).tracker.imu_kalman_update = tc ∧
      (survive_imu_tracker_integrate_observation ext tc t pose R).tracker.obs_kalman_update = tc := by
    intro tc t pose R
    by_cases h : elapsed ext (observation_seed t tc).so tc (observation_seed t tc).obs_kalman_update ≥ 0 ∧
        elapsed ext (observation_seed t tc).so tc (observation_seed t tc).obs_kalman_update < 10
    · rw [integrate_observation_ok ext tc t pose R h]
      exact fun _ => ⟨rfl, rfl⟩
    · rw [integrate_observation_fault ext tc t pose R h]
      exact fun hf => Bool.noConfusion hf
  have hvel : ∀ (t : SurviveIMUTracker) (tc : survive_timecode) (Rv : List FLT)
      (vel : SurviveVelocity),
      (survive_imu_tracker_integrate_velocity ext t tc Rv vel).faulted = false →
      (survive_imu_tracker_integrate_velocity ext t tc Rv vel).tracker.imu_kalman_update = tc ∧
      (survive_imu_tracker_integrate_velocity ext t tc Rv vel).tracker.obs_kalman_update = tc :=
    fun _ _ _ _ _ => ⟨rfl, rfl⟩
  refine ⟨himu, hobs, hvel, ?_⟩
  intro so t hreach
  induction hreach with
  | init => rfl
  | imu t d _ hok _ => rw [(himu t d hok).1, (himu t d hok).2]
  | observation t tc pose R _ hok _ => rw [(hobs tc t pose R hok).1, (hobs tc t pose R hok).2]
  | velocity t tc Rv vel _ hok _ => rw [(hvel t tc Rv vel hok).1, (hvel t tc Rv vel hok).2]

/-- Elapsed time on the sample object with the sample collaborators. -/
theorem sample_elapsed (a b : survive_timecode) :
    elapsed sample_externals sample_object a b = ((a : FLT) - (b : FLT)) / 48000000 := by
  simp [elapsed, sample_externals, sample_object]

/-- Elapsed time between equal timecodes, when their tick difference is zero. -/
theorem elapsed_self (ext : Externals) (so : SurviveObject)
    (hdiff : ∀ a, ext.survive_timecode_difference a a = 0) (a : survive_timecode) :
    elapsed ext so a a = 0 := by
  simp [elapsed, hdiff]

/-- C1 at concrete inputs: on the sample tracker a first IMU sample at timecode 7,
then a pose observation at timecode 48000007, both return and leave the two fused
timestamps at the timecode integrated; the resulting tracker is reachable. -/
theorem fused_clock_invariant_witness :
    (survive_imu_tracker_integrate_imu sample_externals sample_tracker (sample_imu 7)).faulted = false ∧
    (survive_imu_tracker_integrate_imu sample_externals sample_tracker
      (sample_imu 7)).tracker.imu_kalman_update = 7 ∧
    (survive_imu_tracker_integrate_observation sample_externals 48000007 (sample_tracking 7)
      sample_pose [1, 1]).faulted = false ∧
    (survive_imu_tracker_integrate_observation sample_externals 48000007 (sample_tracking 7)
      sample_pose [1, 1]).tracker.obs_kalman_update = 48000007 ∧
    (survive_imu_tracker_integrate_observation sample_externals 48000007 (sample_tracking 7)
      sample_pose [1, 1]).tracker.imu_kalman_update =
    (survive_imu_tracker_integrate_observation sample_externals 48000007 (sample_tracking 7)
      sample_pose [1, 1]).tracker.obs_kalman_update := by
  have h1 : (survive_imu_tracker_integrate_imu sample_externals sample_tracker
      (sample_imu 7)).faulted = false := rfl
  have hdt : elapsed sample_externals (observation_seed (sample_tracking 7) 48000007).so 48000007
        (observation_seed (sample_tracking 7) 48000007).obs_kalman_update ≥ 0 ∧
      elapsed sample_externals (observation_seed (sample_tracking 7) 48000007).so 48000007
        (observation_seed (sample_tracking 7) 48000007).obs_kalman_update < 10 := by
    show elapsed sample_externals sample_object 48000007 7 ≥ 0 ∧
      elapsed sample_externals sample_object 48000007 7 < 10
    rw [sample_elapsed]
    norm_num
  have h2 : (survive_imu_tracker_integrate_observation sample_externals 48000007
      (sample_tracking 7) sample_pose [1, 1]).faulted = false := by
    rw [integrate_observation_ok _ _ _ _ _ hdt]
    rfl
  refine ⟨h1, ((fused_clock_invariant sample_externals).1 _ _ h1).1, h2,
    ((fused_clock_invariant sample_externals).2.1 _ _ _ _ h2).2, ?_⟩
  exact (fused_clock_invariant sample_externals).2.2.2 sample_object _
    (Reachable.observation _ _ _ _ (Reachable.imu _ _ Reachable.init h1) h2)

/-- C2, as stated, fails: on the freshly constructed sample tracker the first
velocity call (timecode 48000000, variances 1) returns without fault and changes the
position state values and the position covariance; and the first pose-observation
call does not stop after seeding: it drives the estimator on both states. -/
theorem first_call_seeding_counterexample :
    sample_tracker = survive_imu_tracker_init sample_externals sample_object ∧
    (survive_imu_tracker_integrate_velocity sample_externals sample_tracker 48000000 [1, 1]
      sample_velocity).faulted = false ∧
    (survive_imu_tracker_integrate_velocity sample_externals sample_tracker 48000000 [1, 1]
      sample_velocity).tracker.position.state ≠ sample_tracker.position.state ∧
    (survive_imu_tracker_integrate_velocity sample_externals sample_tracker 48000000 [1, 1]
      sample_velocity).tracker.position.info.P ≠ sample_tracker.position.info.P ∧
    (survive_imu_tracker_integrate_observation sample_externals 48000000 sample_tracker
      sample_pose [1, 1]).log =
      [Event.predict_update KalmanTarget.position 0 ⟨1, 0, 0⟩ [1, 0, 0] 1,
       Event.predict_update KalmanTarget.rot 0 ⟨0, 0, 0⟩ [1, 0, 0] 1] := by
  refine ⟨rfl, rfl, ?_, ?_, ?_⟩
  · with_unfolding_all decide
  · with_unfolding_all decide
  · with_unfolding_all decide

/-- C2, amended: on a freshly constructed tracker the first IMU call never faults,
does not drive the estimator, and changes only `last_data` and the two fused
timestamps, so both estimator states (values and covariances) are exactly as they
were.  The first pose-observation call (for a nonzero tick frequency and a tick
difference that is zero between equal timecodes) never faults, sets the marker and
the two fused timestamps, and then hands each estimator state to one predict/update
with elapsed time 0 and observation row `[1, 0, 0]`; nothing else changes. -/
theorem first_call_seeding (ext : Externals) (so : SurviveObject)
    (_hz : so.timebase_hz ≠ 0) (hdiff : ∀ a, ext.survive_timecode_difference a a = 0) :
    (∀ d : PoserDataIMU,
      survive_imu_tracker_integrate_imu ext (survive_imu_tracker_init ext so) d =
        { tracker := { survive_imu_tracker_init ext so with
            last_data := d
            imu_kalman_update := d.timecode
            obs_kalman_update := d.timecode }
          faulted := false
          log := [] } ∧
      (survive_imu_tracker_integrate_imu ext (survive_imu_tracker_init ext so) d).tracker.position =
        (survive_imu_tracker_init ext so).position ∧
      (survive_imu_tracker_integrate_imu ext (survive_imu_tracker_init ext so) d).tracker.rot =
        (survive_imu_tracker_init ext so).rot) ∧
    (∀ (tc : survive_timecode) (pose : SurvivePose) (R : List FLT),
      survive_imu_tracker_integrate_observation ext tc (survive_imu_tracker_init ext so) pose R =
        { tracker := { survive_imu_tracker_init ext so with
            last_data := { (survive_imu_tracker_init ext so).last_data with datamask := 1 }
            imu_kalman_update := tc
            obs_kalman_update := tc
            position := ext.survive_kalman_predict_update_state 0
              (survive_imu_tracker_init ext so).position pose.Pos [1, 0, 0] (R.getD 0 0)
            rot := ext.survive_kalman_predict_update_state 0
              (survive_imu_tracker_init ext so).rot (ext.quattoaxisanglemag pose.Rot) [1, 0, 0]
              (R.getD 1 0) }
          faulted := false
          log := [Event.predict_update KalmanTarget.position 0 pose.Pos [1, 0, 0] (R.getD 0 0),
                  Event.predict_update KalmanTarget.rot 0 (ext.quattoaxisanglemag pose.Rot)
                    [1, 0, 0] (R.getD 1 0)] }) := by
  constructor
  · intro d
    rw [integrate_imu_first ext _ d rfl]
    exact ⟨rfl, rfl, rfl⟩
  · intro tc pose R
    have hseed : observation_seed (survive_imu_tracker_init ext so) tc =
        { survive_imu_tracker_init ext so with
          last_data := { (survive_imu_tracker_init ext so).last_data with datamask := 1 }
          imu_kalman_update := tc
          obs_kalman_update := tc } := rfl
    have hdt : elapsed ext (observation_seed (survive_imu_tracker_init ext so) tc).so tc
        (observation_seed (survive_imu_tracker_init ext so) tc).obs_kalman_update = 0 := by
      rw [hseed]
      exact elapsed_self ext _ hdiff tc
    rw [integrate_observation_ok ext tc _ pose R (by rw [hdt]; norm_num), hdt, hseed]
    simp [integrate_observation_fuse]

/-- C2 (amended) at concrete inputs: the sample object has a nonzero tick frequency
and the sample tick difference vanishes on equal timecodes; the first IMU sample at
timecode 7 leaves the position state of the sample tracker as constructed. -/
theorem first_call_seeding_witness :
    sample_object.timebase_hz ≠ 0 ∧
    (∀ a, sample_externals.survive_timecode_difference a a = 0) ∧
    (survive_imu_tracker_integrate_imu sample_externals
      (survive_imu_tracker_init sample_externals sample_object) (sample_imu 7)).tracker.position =
      (survive_imu_tracker_init sample_externals sample_object).position :=
  ⟨by decide, fun a => by simp [sample_externals],
   ((first_call_seeding sample_externals sample_object (by decide)
      (fun a => by simp [sample_externals])).1 (sample_imu 7)).2.1⟩

/-- C3: when the leading covariance term of the position state or of the
orientation state exceeds 100, `survive_imu_tracker_predict` and
`survive_imu_tracker_update` leave the output pose and the tracker unchanged; when
both are at most 100 (exactly 100 included) the output pose becomes the position
extrapolated by `t` and the quaternion of the axis-angle extrapolated by `t`, with
`t` the elapsed time from `obs_kalman_update` to the target timecode. -/
theorem uncertainty_gating (ext : Externals) (tracker : SurviveIMUTracker)
    (timecode : survive_timecode) (out : SurvivePose) :
    ((tracker.position.P0 > 100 ∨ tracker.rot.P0 > 100) →
      survive_imu_tracker_predict ext tracker timecode out = out ∧
      survive_imu_tracker_update ext tracker timecode out = (tracker, out)) ∧
    ((tracker.position.P0 ≤ 100 ∧ tracker.rot.P0 ≤ 100) →
      survive_imu_tracker_predict ext tracker timecode out =
        { Pos := ext.survive_kalman_get_state
            (elapsed ext tracker.so timecode tracker.obs_kalman_update) tracker.position 0
          Rot := ext.quatfromaxisanglemag (ext.survive_kalman_get_state
            (elapsed ext tracker.so timecode tracker.obs_kalman_update) tracker.rot 0) } ∧
      survive_imu_tracker_update ext tracker timecode out =
        (tracker,
         { Pos := ext.survive_kalman_get_state
            (elapsed ext tracker.so timecode tracker.obs_kalman_update) tracker.position 0
           Rot := ext.quatfromaxisanglemag (ext.survive_kalman_get_state
            (elapsed ext tracker.so timecode tracker.obs_kalman_update) tracker.rot 0) })) := by
  constructor
  · intro h
    have hp : survive_imu_tracker_predict ext tracker timecode out = out := by
      unfold survive_imu_tracker_predict
      rw [if_pos h]
    exact ⟨hp, by unfold survive_imu_tracker_update; rw [hp]⟩
  · intro h
    have hn : ¬ (tracker.position.P0 > 100 ∨ tracker.rot.P0 > 100) := by
      rw [not_or, not_lt, not_lt]
      exact h
    have hp : survive_imu_tracker_predict ext tracker timecode out =
        { Pos := ext.survive_kalman_get_state
            (elapsed ext tracker.so timecode tracker.obs_kalman_update) tracker.position 0
          Rot := ext.quatfromaxisanglemag (ext.survive_kalman_get_state
            (elapsed ext tracker.so timecode tracker.obs_kalman_update) tracker.rot 0) } := by
      unfold survive_imu_tracker_predict
      rw [if_neg hn]
    exact ⟨hp, by unfold survive_imu_tracker_update; rw [hp]⟩

/-- C3 at concrete inputs: with position covariance 101 the sample pose handed in
comes back unchanged; with both leading terms exactly 100 it is overwritten by the
extrapolated state (the origin with the identity rotation). -/
theorem uncertainty_gating_witness :
    ((sample_tracker_with_P0 101 0).position.P0 > 100 ∧
      survive_imu_tracker_predict sample_externals (sample_tracker_with_P0 101 0) 48000000
        sample_pose = sample_pose) ∧
    ((sample_tracker_with_P0 100 100).position.P0 ≤ 100 ∧
      (sample_tracker_with_P0 100 100).rot.P0 ≤ 100 ∧
      survive_imu_tracker_predict sample_externals (sample_tracker_with_P0 100 100) 48000000
        sample_pose = ⟨⟨0, 0, 0⟩, ⟨1, 0, 0, 0⟩⟩) := by
  have h101 : (sample_tracker_with_P0 101 0).position.P0 > 100 := by
    with_unfolding_all decide
  have hp : (sample_tracker_with_P0 100 100).position.P0 ≤ 100 := by
    with_unfolding_all decide
  have hr : (sample_tracker_with_P0 100 100).rot.P0 ≤ 100 := by
    with_unfolding_all decide
  refine ⟨⟨h101, ((uncertainty_gating sample_externals _ 48000000 sample_pose).1
    (Or.inl h101)).1⟩, hp, hr, ?_⟩
  rw [((uncertainty_gating sample_externals _ 48000000 sample_pose).2 ⟨hp, hr⟩).1]
  with_unfolding_all decide

/-- The fusing body with the pre-filter enabled: its log and its two states. -/
theorem integrate_imu_fuse_enabled (ext : Externals) (t : SurviveIMUTracker) (d : PoserDataIMU)
    (dt : FLT) (rot : LinmathQuat) (log : List Event) (h : t.mahony_variance ≥ 0) :
    (integrate_imu_fuse ext t d dt rot log).log =
      log ++ [Event.mahony rot d.gyro d.accel,
        Event.predict_update KalmanTarget.rot dt
          (ext.quattoaxisanglemag (mahony_ahrs ext t rot d.gyro d.accel).2) [1, 0]
          (t.rot.P0 + t.mahony_variance),
        Event.predict_update KalmanTarget.position 0 (RotateAccel ext rot d.accel) [0, 0, 1]
          ((ext.survive_kalman_predict_update_state dt t.rot
            (ext.quattoaxisanglemag (mahony_ahrs ext t rot d.gyro d.accel).2) [1, 0]
            (t.rot.P0 + t.mahony_variance)).P0 + t.acc_var),
        Event.predict_update KalmanTarget.rot 0 (ext.quatrotatevector rot d.gyro) [0, 1]
          ((ext.survive_kalman_predict_update_state dt t.rot
            (ext.quattoaxisanglemag (mahony_ahrs ext t rot d.gyro d.accel).2) [1, 0]
            (t.rot.P0 + t.mahony_variance)).P0 + t.gyro_var)] ∧
    (integrate_imu_fuse ext t d dt rot log).tracker.position =
      ext.survive_kalman_predict_update_state 0 t.position (RotateAccel ext rot d.accel) [0, 0, 1]
        ((ext.survive_kalman_predict_update_state dt t.rot
            (ext.quattoaxisanglemag (mahony_ahrs ext t rot d.gyro d.accel).2) [1, 0]
            (t.rot.P0 + t.mahony_variance)).P0 + t.acc_var) ∧
    (integrate_imu_fuse ext t d dt rot log).tracker.rot =
      ext.survive_kalman_predict_update_state 0
        (ext.survive_kalman_predict_update_state dt t.rot
            (ext.quattoaxisanglemag (mahony_ahrs ext t rot d.gyro d.accel).2) [1, 0]
            (t.rot.P0 + t.mahony_variance))
        (ext.quatrotatevector rot d.gyro) [0, 1]
        ((ext.survive_kalman_predict_update_state dt t.rot
            (ext.quattoaxisanglemag (mahony_ahrs ext t rot d.gyro d.accel).2) [1, 0]
            (t.rot.P0 + t.mahony_variance)).P0 + t.gyro_var) := by
  unfold integrate_imu_fuse integrate_imu_prefilter
  simp only [if_pos h]
  simp [integrate_imu_measure]

/-- The fusing body with the pre-filter disabled: its log and its two states. -/
theorem integrate_imu_fuse_disabled (ext : Externals) (t : SurviveIMUTracker) (d : PoserDataIMU)
    (dt : FLT) (rot : LinmathQuat) (log : List Event) (h : ¬ t.mahony_variance ≥ 0) :
    (integrate_imu_fuse ext t d dt rot log).log =
      log ++ [Event.predict_update KalmanTarget.position dt (RotateAccel ext rot d.accel) [0, 0, 1]
          (t.rot.P0 + t.acc_var),
        Event.predict_update KalmanTarget.rot dt (ext.quatrotatevector rot d.gyro) [0, 1]
          (t.rot.P0 + t.gyro_var)] ∧
    (integrate_imu_fuse ext t d dt rot log).tracker.position =
      ext.survive_kalman_predict_update_state dt t.position (RotateAccel ext rot d.accel) [0, 0, 1]
        (t.rot.P0 + t.acc_var) ∧
    (integrate_imu_fuse ext t d dt rot log).tracker.rot =
      ext.survive_kalman_predict_update_state dt t.rot (ext.quatrotatevector rot d.gyro) [0, 1]
        (t.rot.P0 + t.gyro_var) := by
  unfold integrate_imu_fuse integrate_imu_prefilter
  simp only [if_neg h]
  simp [integrate_imu_measure]

/-- The fusing body hands the estimator the elapsed time it was given first, and it
adds no warning to the log. -/
theorem integrate_imu_fuse_times (ext : Externals) (t : SurviveIMUTracker) (d : PoserDataIMU)
    (dt : FLT) (rot : LinmathQuat) (log : List Event) :
    predict_times (integrate_imu_fuse ext t d dt rot log).log =
      predict_times log ++ (if t.mahony_variance ≥ 0 then [dt, 0, 0] else [dt, dt]) ∧
    ∀ w, Event.warn w ∈ (integrate_imu_fuse ext t d dt rot log).log ↔ Event.warn w ∈ log := by
  by_cases h : t.mahony_variance ≥ 0
  · rw [(integrate_imu_fuse_enabled ext t d dt rot log h).1, if_pos h]
    simp [predict_times, Event.elapsed?]
  · rw [(integrate_imu_fuse_disabled ext t d dt rot log h).1, if_neg h]
    simp [predict_times, Event.elapsed?]

/-- C4: for a Tracking tracker (nonzero tick frequency) and an IMU sample with
elapsed time `dt`, the IMU entry point faults exactly when `dt ≤ 0` or `dt ≥ 10`; it
logs the dropped-packet warning exactly when `dt > 1`; and for `0 < dt < 10` it
returns and the first predict/update of the call receives `dt` itself. -/
theorem imu_elapsed_taxonomy (ext : Externals) (t : SurviveIMUTracker) (d : PoserDataIMU)
    (_hz : t.so.timebase_hz ≠ 0) (htrack : t.last_data.datamask ≠ 0) :
    ((survive_imu_tracker_integrate_imu ext t d).faulted = true ↔
      (elapsed ext t.so d.timecode t.imu_kalman_update ≤ 0 ∨
       elapsed ext t.so d.timecode t.imu_kalman_update ≥ 10)) ∧
    ((∃ w, Event.warn w ∈ (survive_imu_tracker_integrate_imu ext t d).log) ↔
      elapsed ext t.so d.timecode t.imu_kalman_update > 1) ∧
    (0 < elapsed ext t.so d.timecode t.imu_kalman_update →
      elapsed ext t.so d.timecode t.imu_kalman_update < 10 →
      (survive_imu_tracker_integrate_imu ext t d).faulted = false ∧
      (predict_times (survive_imu_tracker_integrate_imu ext t d).log).head? =
        some (elapsed ext t.so d.timecode t.imu_kalman_update)) := by
  by_cases hdt : elapsed ext t.so d.timecode t.imu_kalman_update > 0
  · by_cases h1 : elapsed ext t.so d.timecode t.imu_kalman_update > 1
    · by_cases h10 : elapsed ext t.so d.timecode t.imu_kalman_update < 10
      · rw [integrate_imu_warned ext t d htrack hdt h1 h10]
        refine ⟨?_, ?_, ?_⟩
        · rw [integrate_imu_fuse_faulted]
          constructor
          · exact fun hf => Bool.noConfusion hf
          · rintro (h | h)
            · exact absurd hdt (not_lt.mpr h)
            · exact absurd h10 (not_lt.mpr h)
        · constructor
          · exact fun _ => h1
          · exact fun _ => ⟨_, ((integrate_imu_fuse_times ext t d _ _ _).2 _).mpr
              (List.mem_singleton.mpr rfl)⟩
        · intro _ _
          refine ⟨rfl, ?_⟩
          rw [(integrate_imu_fuse_times ext t d _ _ _).1]
          by_cases hm : t.mahony_variance ≥ 0
          · simp [predict_times, Event.elapsed?, hm]
          · simp [predict_times, Event.elapsed?, hm]
      · rw [integrate_imu_too_long ext t d htrack hdt h1 h10]
        refine ⟨?_, ?_, ?_⟩
        · exact ⟨fun _ => Or.inr (not_lt.mp h10), fun _ => rfl⟩
        · exact ⟨fun _ => h1, fun _ => ⟨_, List.mem_singleton.mpr rfl⟩⟩
        · exact fun _ h => absurd h h10
    · rw [integrate_imu_plain ext t d htrack hdt h1]
      have h10 : elapsed ext t.so d.timecode t.imu_kalman_update < 10 :=
        lt_of_le_of_lt (not_lt.mp h1) (by norm_num)
      refine ⟨?_, ?_, ?_⟩
      · rw [integrate_imu_fuse_faulted]
        constructor
        · exact fun hf => Bool.noConfusion hf
        · rintro (h | h)
          · exact absurd hdt (not_lt.mpr h)
          · exact absurd h10 (not_lt.mpr h)
      · constructor
        · rintro ⟨w, hw⟩
          rw [(integrate_imu_fuse_times ext t d _ _ _).2 w] at hw
          exact absurd hw (List.not_mem_nil _)
        · exact fun h => absurd h h1
      · intro _ _
        refine ⟨rfl, ?_⟩
        rw [(integrate_imu_fuse_times ext t d _ _ _).1]
        by_cases hm : t.mahony_variance ≥ 0
        · simp [predict_times, Event.elapsed?, hm]
        · simp [predict_times, Event.elapsed?, hm]
  · rw [integrate_imu_nonpositive ext t d htrack hdt]
    refine ⟨?_, ?_, ?_⟩
    · exact ⟨fun _ => Or.inl (not_lt.mp hdt), fun _ => rfl⟩
    · constructor
      · rintro ⟨w, hw⟩
        exact absurd hw (List.not_mem_nil _)
      · exact fun h => absurd (lt_trans (by norm_num) h) hdt
    · exact fun h _ => absurd h hdt

/-- C4 at concrete inputs: the sample tracker, Tracking since timecode 0, receives
an IMU sample two time units later: no fault, the warning is logged, and the first
predict/update gets the elapsed time 2. -/
theorem imu_elapsed_taxonomy_witness :
    (sample_tracking 0).so.timebase_hz ≠ 0 ∧
    (sample_tracking 0).last_data.datamask ≠ 0 ∧
    elapsed sample_externals (sample_tracking 0).so (sample_imu 96000000).timecode
      (sample_tracking 0).imu_kalman_update = 2 ∧
    (survive_imu_tracker_integrate_imu sample_externals (sample_tracking 0)
      (sample_imu 96000000)).faulted = false ∧
    (predict_times (survive_imu_tracker_integrate_imu sample_externals (sample_tracking 0)
      (sample_imu 96000000)).log).head? = some 2 ∧
    (∃ w, Event.warn w ∈ (survive_imu_tracker_integrate_imu sample_externals (sample_tracking 0)
      (sample_imu 96000000)).log) := by
  have hz : (sample_tracking 0).so.timebase_hz ≠ 0 := by decide
  have htrack : (sample_tracking 0).last_data.datamask ≠ 0 := by decide
  have hdt : elapsed sample_externals (sample_tracking 0).so (sample_imu 96000000).timecode
      (sample_tracking 0).imu_kalman_update = 2 := by
    show elapsed sample_externals sample_object 96000000 0 = 2
    rw [sample_elapsed]
    norm_num
  have key := imu_elapsed_taxonomy sample_externals (sample_tracking 0) (sample_imu 96000000)
    hz htrack
  rw [hdt] at key
  exact ⟨hz, htrack, hdt, (key.2.2 (by norm_num) (by norm_num)).1,
    (key.2.2 (by norm_num) (by norm_num)).2, key.2.1.mpr (by norm_num)⟩

/-- C5: the pose-observation entry point (nonzero tick frequency) returns without
fault exactly when the elapsed time `dt`, computed against `obs_kalman_update` as it
stands after the first-call seeding, satisfies `0 ≤ dt < 10`.  When the tick
difference of equal timecodes is zero, a call on an uninitialized tracker has
`dt = 0` and does not fault, whatever the timecode; the freshly constructed tracker
is such a tracker. -/
theorem observation_elapsed_check (ext : Externals) (tc : survive_timecode)
    (t : SurviveIMUTracker) (pose : SurvivePose) (R : List FLT)
    (_hz : t.so.timebase_hz ≠ 0) (hdiff : ∀ a, ext.survive_timecode_difference a a = 0) :
    ((survive_imu_tracker_integrate_observation ext tc t pose R).faulted = false ↔
      (0 ≤ elapsed ext t.so tc (if t.last_data.datamask = 0 then tc else t.obs_kalman_update) ∧
       elapsed ext t.so tc (if t.last_data.datamask = 0 then tc else t.obs_kalman_update) < 10)) ∧
    (t.last_data.datamask = 0 →
      elapsed ext t.so tc (if t.last_data.datamask = 0 then tc else t.obs_kalman_update) = 0 ∧
      (survive_imu_tracker_integrate_observation ext tc t pose R).faulted = false) ∧
    ((survive_imu_tracker_init ext t.so).last_data.datamask = 0 ∧
      (survive_imu_tracker_integrate_observation ext tc (survive_imu_tracker_init ext t.so)
        pose R).faulted = false) := by
  have main : ∀ u : SurviveIMUTracker,
      ((survive_imu_tracker_integrate_observation ext tc u pose R).faulted = false ↔
        (0 ≤ elapsed ext u.so tc (if u.last_data.datamask = 0 then tc else u.obs_kalman_update) ∧
         elapsed ext u.so tc (if u.last_data.datamask = 0 then tc else u.obs_kalman_update)
           < 10)) := by
    intro u
    rw [← observation_seed_clock u tc, ← observation_seed_so u tc]
    by_cases h : elapsed ext (observation_seed u tc).so tc
          (observation_seed u tc).obs_kalman_update ≥ 0 ∧
        elapsed ext (observation_seed u tc).so tc (observation_seed u tc).obs_kalman_update < 10
    · rw [integrate_observation_ok ext tc u pose R h]
      exact ⟨fun _ => h, fun _ => rfl⟩
    · rw [integrate_observation_fault ext tc u pose R h]
      exact ⟨fun hf => Bool.noConfusion hf, fun h2 => absurd h2 h⟩
  have first : ∀ u : SurviveIMUTracker, u.last_data.datamask = 0 →
      elapsed ext u.so tc (if u.last_data.datamask = 0 then tc else u.obs_kalman_update) = 0 ∧
      (survive_imu_tracker_integrate_observation ext tc u pose R).faulted = false := by
    intro u h0
    have h : elapsed ext u.so tc
        (if u.last_data.datamask = 0 then tc else u.obs_kalman_update) = 0 := by
      rw [if_pos h0]
      exact elapsed_self ext u.so hdiff tc
    refine ⟨h, (main u).mpr ?_⟩
    rw [h]
    norm_num
  exact ⟨main t, first t, rfl, (first (survive_imu_tracker_init ext t.so) rfl).2⟩

/-- C5 at concrete inputs: the first pose observation on the sample tracker, at
timecode 4000000000, does not fault. -/
theorem observation_elapsed_check_witness :
    sample_tracker.so.timebase_hz ≠ 0 ∧
    (∀ a, sample_externals.survive_timecode_difference a a = 0) ∧
    (survive_imu_tracker_integrate_observation sample_externals 4000000000 sample_tracker
      sample_pose [1, 1]).faulted = false :=
  ⟨by decide, fun a => by simp [sample_externals],
   ((observation_elapsed_check sample_externals 4000000000 sample_tracker sample_pose [1, 1]
      (by decide) (fun a => by simp [sample_externals])).2.1 rfl).2⟩

/-- C6, the code at the failing input: the sample tracker has integrated a pose
observation at timecode 96000000; a velocity observation at timecode 48000000 then
returns without fault, hands the estimator the elapsed time -1 twice, and moves both
fused timestamps back to 48000000. -/
theorem velocity_elapsed_unchecked :
    (sample_observed 96000000).obs_kalman_update = 96000000 ∧
    (sample_observed 96000000).imu_kalman_update = 96000000 ∧
    (survive_imu_tracker_integrate_velocity sample_externals (sample_observed 96000000) 48000000
      [1, 1] sample_velocity).faulted = false ∧
    predict_times (survive_imu_tracker_integrate_velocity sample_externals
      (sample_observed 96000000) 48000000 [1, 1] sample_velocity).log = [-1, -1] ∧
    (survive_imu_tracker_integrate_velocity sample_externals (sample_observed 96000000) 48000000
      [1, 1] sample_velocity).tracker.obs_kalman_update = 48000000 ∧
    (survive_imu_tracker_integrate_velocity sample_externals (sample_observed 96000000) 48000000
      [1, 1] sample_velocity).tracker.imu_kalman_update = 48000000 := by
  refine ⟨?_, ?_, rfl, ?_, rfl, rfl⟩
  · with_unfolding_all decide
  · with_unfolding_all decide
  · with_unfolding_all decide

/-- A non-first IMU call that returns ran the fusing body, with the elapsed time in
`(0, 10)` and the warning logged first when the elapsed time exceeds 1. -/
theorem integrate_imu_returns (ext : Externals) (t : SurviveIMUTracker) (d : PoserDataIMU)
    (htrack : t.last_data.datamask ≠ 0)
    (hok : (survive_imu_tracker_integrate_imu ext t d).faulted = false) :
    survive_imu_tracker_integrate_imu ext t d =
      integrate_imu_fuse ext t d (elapsed ext t.so d.timecode t.imu_kalman_update)
        (ext.quatfromaxisanglemag (ext.survive_kalman_get_state 0 t.rot 0))
        (if elapsed ext t.so d.timecode t.imu_kalman_update > 1
          then [Event.warn (elapsed ext t.so d.timecode t.imu_kalman_update)] else []) ∧
    0 < elapsed ext t.so d.timecode t.imu_kalman_update ∧
    elapsed ext t.so d.timecode t.imu_kalman_update < 10 := by
  by_cases hdt : elapsed ext t.so d.timecode t.imu_kalman_update > 0
  · by_cases h1 : elapsed ext t.so d.timecode t.imu_kalman_update > 1
    · by_cases h10 : elapsed ext t.so d.timecode t.imu_kalman_update < 10
      · rw [integrate_imu_warned ext t d htrack hdt h1 h10, if_pos h1]
        exact ⟨rfl, hdt, h10⟩
      · rw [integrate_imu_too_long ext t d htrack hdt h1 h10] at hok
        exact Bool.noConfusion hok
    · rw [integrate_imu_plain ext t d htrack hdt h1, if_neg h1]
      exact ⟨rfl, hdt, lt_of_le_of_lt (not_lt.mp h1) (by norm_num)⟩
  · rw [integrate_imu_nonpositive ext t d htrack hdt] at hok
    exact Bool.noConfusion hok

/-- C7, as stated, fails: the sample tracker is Tracking with position covariance 5,
orientation covariance 2 and accelerometer variance 1; an IMU sample one millisecond
later feeds the acceleration to the position state with variance 3, the orientation
covariance plus the accelerometer variance, not 6. -/
theorem accel_variance_counterexample :
    (sample_tracking_with_P0 5 2).last_data.datamask ≠ 0 ∧
    (sample_tracking_with_P0 5 2).position.P0 = 5 ∧
    (sample_tracking_with_P0 5 2).rot.P0 = 2 ∧
    (sample_tracking_with_P0 5 2).acc_var = 1 ∧
    (survive_imu_tracker_integrate_imu sample_externals (sample_tracking_with_P0 5 2)
      (sample_imu 48000)).faulted = false ∧
    (survive_imu_tracker_integrate_imu sample_externals (sample_tracking_with_P0 5 2)
      (sample_imu 48000)).log =
      [Event.predict_update KalmanTarget.position (1 / 1000) ⟨0, 0, 0⟩ [0, 0, 1] 3,
       Event.predict_update KalmanTarget.rot (1 / 1000) ⟨0, 0, 0⟩ [0, 1] (2001 / 1000)] := by
  refine ⟨?_, ?_, ?_, ?_, ?_, ?_⟩
  · with_unfolding_all decide
  · with_unfolding_all decide
  · with_unfolding_all decide
  · with_unfolding_all decide
  · with_unfolding_all decide
  · set_option maxRecDepth 8000 in with_unfolding_all decide

/-- C7, amended: in every non-first call of the IMU entry point that returns, the
last two estimator calls are the world-frame acceleration fed to the position state
with row `[0, 0, 1]` and the rotated gyro fed to the orientation state with row
`[0, 1]`; their variances are the leading covariance term of the ORIENTATION state,
as it stands after the pre-filter update when the pre-filter is enabled, plus
`acc_var` and plus `gyro_var` respectively. -/
theorem imu_measurement_variance (ext : Externals) (t : SurviveIMUTracker) (d : PoserDataIMU)
    (htrack : t.last_data.datamask ≠ 0)
    (hok : (survive_imu_tracker_integrate_imu ext t d).faulted = false) :
    ∃ (pre : List Event) (rot1 : survive_kalman_state_t) (dt1 : FLT),
      rot1 = (if t.mahony_variance ≥ 0 then
          ext.survive_kalman_predict_update_state
            (elapsed ext t.so d.timecode t.imu_kalman_update) t.rot
            (ext.quattoaxisanglemag (mahony_ahrs ext t
              (ext.quatfromaxisanglemag (ext.survive_kalman_get_state 0 t.rot 0))
              d.gyro d.accel).2)
            [1, 0] (t.rot.P0 + t.mahony_variance)
        else t.rot) ∧
      dt1 = (if t.mahony_variance ≥ 0 then 0
        else elapsed ext t.so d.timecode t.imu_kalman_update) ∧
      (∀ e ∈ pre, ∀ t0 z H R, e ≠ Event.predict_update KalmanTarget.position t0 z H R) ∧
      (survive_imu_tracker_integrate_imu ext t d).log =
        pre ++
        [Event.predict_update KalmanTarget.position dt1
            (RotateAccel ext (ext.quatfromaxisanglemag (ext.survive_kalman_get_state 0 t.rot 0))
              d.accel)
            [0, 0, 1] (rot1.P0 + t.acc_var),
         Event.predict_update KalmanTarget.rot dt1
            (ext.quatrotatevector
              (ext.quatfromaxisanglemag (ext.survive_kalman_get_state 0 t.rot 0)) d.gyro)
            [0, 1] (rot1.P0 + t.gyro_var)] := by
  rw [(integrate_imu_returns ext t d htrack hok).1]
  by_cases hm : t.mahony_variance ≥ 0
  · rw [(integrate_imu_fuse_enabled ext t d _ _ _ hm).1, if_pos hm, if_pos hm]
    refine ⟨(if elapsed ext t.so d.timecode t.imu_kalman_update > 1
          then [Event.warn (elapsed ext t.so d.timecode t.imu_kalman_update)] else []) ++
        [Event.mahony (ext.quatfromaxisanglemag (ext.survive_kalman_get_state 0 t.rot 0))
            d.gyro d.accel,
          Event.predict_update KalmanTarget.rot
            (elapsed ext t.so d.timecode t.imu_kalman_update)
            (ext.quattoaxisanglemag (mahony_ahrs ext t
              (ext.quatfromaxisanglemag (ext.survive_kalman_get_state 0 t.rot 0))
              d.gyro d.accel).2) [1, 0] (t.rot.P0 + t.mahony_variance)],
      _, _, rfl, rfl, ?_, ?_⟩
    · intro e he t0 z H R heq
      subst heq
      split_ifs at he <;> simp at he
    · simp
  · rw [(integrate_imu_fuse_disabled ext t d _ _ _ hm).1, if_neg hm, if_neg hm]
    refine ⟨(if elapsed ext t.so d.timecode t.imu_kalman_update > 1
          then [Event.warn (elapsed ext t.so d.timecode t.imu_kalman_update)] else []),
      _, _, rfl, rfl, ?_, rfl⟩
    intro e he t0 z H R heq
    subst heq
    split_ifs at he <;> simp at he

/-- C7 (amended) at concrete inputs: the Tracking sample tracker with position
covariance 5 and orientation covariance 2, one millisecond after its first sample. -/
theorem imu_measurement_variance_witness :
    (sample_tracking_with_P0 5 2).last_data.datamask ≠ 0 ∧
    (survive_imu_tracker_integrate_imu sample_externals (sample_tracking_with_P0 5 2)
      (sample_imu 48000)).faulted = false ∧
    ∃ (pre : List Event) (rot1 : survive_kalman_state_t) (dt1 : FLT),
      rot1 = (if (sample_tracking_with_P0 5 2).mahony_variance ≥ 0 then
          sample_externals.survive_kalman_predict_update_state
            (elapsed sample_externals (sample_tracking_with_P0 5 2).so (sample_imu 48000).timecode
              (sample_tracking_with_P0 5 2).imu_kalman_update)
            (sample_tracking_with_P0 5 2).rot
            (sample_externals.quattoaxisanglemag (mahony_ahrs sample_externals
              (sample_tracking_with_P0 5 2)
              (sample_externals.quatfromaxisanglemag
                (sample_externals.survive_kalman_get_state 0 (sample_tracking_with_P0 5 2).rot 0))
              (sample_imu 48000).gyro (sample_imu 48000).accel).2)
            [1, 0] ((sample_tracking_with_P0 5 2).rot.P0 +
              (sample_tracking_with_P0 5 2).mahony_variance)
        else (sample_tracking_with_P0 5 2).rot) ∧
      dt1 = (if (sample_tracking_with_P0 5 2).mahony_variance ≥ 0 then 0
        else elapsed sample_externals (sample_tracking_with_P0 5 2).so (sample_imu 48000).timecode
          (sample_tracking_with_P0 5 2).imu_kalman_update) ∧
      (∀ e ∈ pre, ∀ t0 z H R, e ≠ Event.predict_update KalmanTarget.position t0 z H R) ∧
      (survive_imu_tracker_integrate_imu sample_externals (sample_tracking_with_P0 5 2)
          (sample_imu 48000)).log =
        pre ++
        [Event.predict_update KalmanTarget.position dt1
            (RotateAccel sample_externals (sample_externals.quatfromaxisanglemag
              (sample_externals.survive_kalman_get_state 0 (sample_tracking_with_P0 5 2).rot 0))
              (sample_imu 48000).accel)
            [0, 0, 1] (rot1.P0 + (sample_tracking_with_P0 5 2).acc_var),
         Event.predict_update KalmanTarget.rot dt1
            (sample_externals.quatrotatevector
              (sample_externals.quatfromaxisanglemag
                (sample_externals.survive_kalman_get_state 0 (sample_tracking_with_P0 5 2).rot 0))
              (sample_imu 48000).gyro)
            [0, 1] (rot1.P0 + (sample_tracking_with_P0 5 2).gyro_var)] :=
  ⟨by with_unfolding_all decide, by with_unfolding_all decide,
   imu_measurement_variance sample_externals (sample_tracking_with_P0 5 2) (sample_imu 48000)
    (by with_unfolding_all decide) (by with_unfolding_all decide)⟩

/-- C8: in a non-first IMU call that returns, with elapsed time `dt` and `rot` the
quaternion of the orientation read before any update: if `mahony_variance ≥ 0` the
pre-filter runs once and the estimator is driven exactly three times, in this order:
orientation with row `[1, 0]`, the pre-filtered axis-angle, variance
`rot.info.P[0] + mahony_variance` and elapsed time `dt`; position with row
`[0, 0, 1]` and elapsed time 0; orientation with row `[0, 1]` and elapsed time 0.
If `mahony_variance < 0` the pre-filter does not run and the estimator is driven
exactly twice, position then orientation rate, both with elapsed time `dt`.  In
both cases the accelerometer and gyro vectors are rotated with `rot`. -/
theorem prefilter_consumes_dt (ext : Externals) (t : SurviveIMUTracker) (d : PoserDataIMU)
    (htrack : t.last_data.datamask ≠ 0)
    (hok : (survive_imu_tracker_integrate_imu ext t d).faulted = false) :
    (t.mahony_variance ≥ 0 →
      (survive_imu_tracker_integrate_imu ext t d).log.filter (fun e => !e.isWarn) =
        [Event.mahony (ext.quatfromaxisanglemag (ext.survive_kalman_get_state 0 t.rot 0))
            d.gyro d.accel,
          Event.predict_update KalmanTarget.rot (elapsed ext t.so d.timecode t.imu_kalman_update)
            (ext.quattoaxisanglemag (mahony_ahrs ext t
              (ext.quatfromaxisanglemag (ext.survive_kalman_get_state 0 t.rot 0))
              d.gyro d.accel).2)
            [1, 0] (t.rot.P0 + t.mahony_variance),
          Event.predict_update KalmanTarget.position 0
            (RotateAccel ext (ext.quatfromaxisanglemag (ext.survive_kalman_get_state 0 t.rot 0))
              d.accel)
            [0, 0, 1]
            ((ext.survive_kalman_predict_update_state
              (elapsed ext t.so d.timecode t.imu_kalman_update) t.rot
              (ext.quattoaxisanglemag (mahony_ahrs ext t
                (ext.quatfromaxisanglemag (ext.survive_kalman_get_state 0 t.rot 0))
                d.gyro d.accel).2)
              [1, 0] (t.rot.P0 + t.mahony_variance)).P0 + t.acc_var),
          Event.predict_update KalmanTarget.rot 0
            (ext.quatrotatevector
              (ext.quatfromaxisanglemag (ext.survive_kalman_get_state 0 t.rot 0)) d.gyro)
            [0, 1]
            ((ext.survive_kalman_predict_update_state
              (elapsed ext t.so d.timecode t.imu_kalman_update) t.rot
              (ext.quattoaxisanglemag (mahony_ahrs ext t
                (ext.quatfromaxisanglemag (ext.survive_kalman_get_state 0 t.rot 0))
                d.gyro d.accel).2)
              [1, 0] (t.rot.P0 + t.mahony_variance)).P0 + t.gyro_var)] ∧
      predict_times (survive_imu_tracker_integrate_imu ext t d).log =
        [elapsed ext t.so d.timecode t.imu_kalman_update, 0, 0]) ∧
    (t.mahony_variance < 0 →
      (survive_imu_tracker_integrate_imu ext t d).log.filter (fun e => !e.isWarn) =
        [Event.predict_update KalmanTarget.position
            (elapsed ext t.so d.timecode t.imu_kalman_update)
            (RotateAccel ext (ext.quatfromaxisanglemag (ext.survive_kalman_get_state 0 t.rot 0))
              d.accel)
            [0, 0, 1] (t.rot.P0 + t.acc_var),
          Event.predict_update KalmanTarget.rot
            (elapsed ext t.so d.timecode t.imu_kalman_update)
            (ext.quatrotatevector
              (ext.quatfromaxisanglemag (ext.survive_kalman_get_state 0 t.rot 0)) d.gyro)
            [0, 1] (t.rot.P0 + t.gyro_var)] ∧
      predict_times (survive_imu_tracker_integrate_imu ext t d).log =
        [elapsed ext t.so d.timecode t.imu_kalman_update,
         elapsed ext t.so d.timecode t.imu_kalman_update] ∧
      (survive_imu_tracker_integrate_imu ext t d).log.filter Event.isMahony = []) := by
  rw [(integrate_imu_returns ext t d htrack hok).1]
  constructor
  · intro hm
    rw [(integrate_imu_fuse_times ext t d _ _ _).1, (integrate_imu_fuse_enabled ext t d _ _ _ hm).1,
      if_pos hm]
    constructor
    · split_ifs <;> simp [Event.isWarn]
    · split_ifs <;> simp [predict_times, Event.elapsed?]
  · intro hm
    have hm2 : ¬ t.mahony_variance ≥ 0 := not_le.mpr hm
    rw [(integrate_imu_fuse_times ext t d _ _ _).1,
      (integrate_imu_fuse_disabled ext t d _ _ _ hm2).1, if_neg hm2]
    refine ⟨?_, ?_, ?_⟩
    · split_ifs <;> simp [Event.isWarn]
    · split_ifs <;> simp [predict_times, Event.elapsed?]
    · split_ifs <;> simp [Event.isMahony]

/-- C8 at concrete inputs: the Tracking sample tracker one millisecond after its
first sample.  With Mahony variance exactly 0 the estimator gets the elapsed times
1/1000, 0, 0; with the default variance -1 it gets 1/1000 twice. -/
theorem prefilter_consumes_dt_witness :
    ((sample_tracking_mahony 0).last_data.datamask ≠ 0 ∧
      (sample_tracking_mahony 0).mahony_variance ≥ 0 ∧
      (survive_imu_tracker_integrate_imu sample_externals (sample_tracking_mahony 0)
        (sample_imu 48000)).faulted = false ∧
      predict_times (survive_imu_tracker_integrate_imu sample_externals
        (sample_tracking_mahony 0) (sample_imu 48000)).log = [1 / 1000, 0, 0]) ∧
    ((sample_tracking 0).mahony_variance < 0 ∧
      (survive_imu_tracker_integrate_imu sample_externals (sample_tracking 0)
        (sample_imu 48000)).faulted = false ∧
      predict_times (survive_imu_tracker_integrate_imu sample_externals (sample_tracking 0)
        (sample_imu 48000)).log = [1 / 1000, 1 / 1000]) := by
  have hdt : ∀ u : SurviveIMUTracker, u.so = sample_object → u.imu_kalman_update = 0 →
      elapsed sample_externals u.so (sample_imu 48000).timecode u.imu_kalman_update
        = 1 / 1000 := by
    intro u h1 h2
    rw [h1, h2]
    show elapsed sample_externals sample_object 48000 0 = 1 / 1000
    rw [sample_elapsed]
    norm_num
  have ha : (sample_tracking_mahony 0).last_data.datamask ≠ 0 := by decide
  have hm : (sample_tracking_mahony 0).mahony_variance ≥ 0 := by with_unfolding_all decide
  have hok : (survive_imu_tracker_integrate_imu sample_externals (sample_tracking_mahony 0)
      (sample_imu 48000)).faulted = false := by with_unfolding_all decide
  have hb : (sample_tracking 0).last_data.datamask ≠ 0 := by decide
  have hm2 : (sample_tracking 0).mahony_variance < 0 := by with_unfolding_all decide
  have hok2 : (survive_imu_tracker_integrate_imu sample_externals (sample_tracking 0)
      (sample_imu 48000)).faulted = false := by with_unfolding_all decide
  have e1 := ((prefilter_consumes_dt sample_externals (sample_tracking_mahony 0)
    (sample_imu 48000) ha hok).1 hm).2
  have e2 := ((prefilter_consumes_dt sample_externals (sample_tracking 0)
    (sample_imu 48000) hb hok2).2 hm2).2.1
  rw [hdt _ rfl rfl] at e1 e2
  exact ⟨⟨ha, hm, hok, e1⟩, hm2, hok2, e2⟩

/-- A pose-observation call that returns ran the fusing body on the seeded tracker,
with an elapsed time in `[0, 10)`. -/
theorem integrate_observation_returns (ext : Externals) (tc : survive_timecode)
    (t : SurviveIMUTracker) (pose : SurvivePose) (R : List FLT)
    (hok : (survive_imu_tracker_integrate_observation ext tc t pose R).faulted = false) :
    survive_imu_tracker_integrate_observation ext tc t pose R =
      integrate_observation_fuse ext tc (observation_seed t tc) pose R
        (elapsed ext t.so tc (if t.last_data.datamask = 0 then tc else t.obs_kalman_update)) ∧
    0 ≤ elapsed ext t.so tc (if t.last_data.datamask = 0 then tc else t.obs_kalman_update) ∧
    elapsed ext t.so tc (if t.last_data.datamask = 0 then tc else t.obs_kalman_update) < 10 := by
  rw [← observation_seed_clock t tc, ← observation_seed_so t tc]
  by_cases h : elapsed ext (observation_seed t tc).so tc
        (observation_seed t tc).obs_kalman_update ≥ 0 ∧
      elapsed ext (observation_seed t tc).so tc (observation_seed t tc).obs_kalman_update < 10
  · rw [integrate_observation_ok ext tc t pose R h]
    exact ⟨rfl, h.1, h.2⟩
  · rw [integrate_observation_fault ext tc t pose R h] at hok
    exact Bool.noConfusion hok

/-- C9: in every pose-observation call that returns (nonzero tick frequency), with
elapsed time `dt`, the estimator is driven exactly twice: the position state with
elapsed time `dt`, measurement `pose.Pos`, row `[1, dt, dt*dt/2]` and variance
`R[0]`; then the orientation state with elapsed time `dt`, the axis-angle of
`pose.Rot`, the same row, whose first two entries are `[1, dt]`, and variance
`R[1]`.  The two states of the tracker are the results of these calls. -/
theorem observation_update (ext : Externals) (tc : survive_timecode) (t : SurviveIMUTracker)
    (pose : SurvivePose) (R : List FLT) (_hz : t.so.timebase_hz ≠ 0)
    (hok : (survive_imu_tracker_integrate_observation ext tc t pose R).faulted = false) :
    (survive_imu_tracker_integrate_observation ext tc t pose R).log =
      [Event.predict_update KalmanTarget.position
          (elapsed ext t.so tc (if t.last_data.datamask = 0 then tc else t.obs_kalman_update))
          pose.Pos
          [1, elapsed ext t.so tc (if t.last_data.datamask = 0 then tc else t.obs_kalman_update),
            elapsed ext t.so tc (if t.last_data.datamask = 0 then tc else t.obs_kalman_update) *
            elapsed ext t.so tc (if t.last_data.datamask = 0 then tc else t.obs_kalman_update) / 2]
          (R.getD 0 0),
       Event.predict_update KalmanTarget.rot
          (elapsed ext t.so tc (if t.last_data.datamask = 0 then tc else t.obs_kalman_update))
          (ext.quattoaxisanglemag pose.Rot)
          [1, elapsed ext t.so tc (if t.last_data.datamask = 0 then tc else t.obs_kalman_update),
            elapsed ext t.so tc (if t.last_data.datamask = 0 then tc else t.obs_kalman_update) *
            elapsed ext t.so tc (if t.last_data.datamask = 0 then tc else t.obs_kalman_update) / 2]
          (R.getD 1 0)] ∧
    List.take 2
        [1, elapsed ext t.so tc (if t.last_data.datamask = 0 then tc else t.obs_kalman_update),
          elapsed ext t.so tc (if t.last_data.datamask = 0 then tc else t.obs_kalman_update) *
          elapsed ext t.so tc (if t.last_data.datamask = 0 then tc else t.obs_kalman_update) / 2] =
      [1, elapsed ext t.so tc (if t.last_data.datamask = 0 then tc else t.obs_kalman_update)] ∧
    (survive_imu_tracker_integrate_observation ext tc t pose R).tracker.position =
      ext.survive_kalman_predict_update_state
        (elapsed ext t.so tc (if t.last_data.datamask = 0 then tc else t.obs_kalman_update))
        t.position pose.Pos
        [1, elapsed ext t.so tc (if t.last_data.datamask = 0 then tc else t.obs_kalman_update),
          elapsed ext t.so tc (if t.last_data.datamask = 0 then tc else t.obs_kalman_update) *
          elapsed ext t.so tc (if t.last_data.datamask = 0 then tc else t.obs_kalman_update) / 2]
        (R.getD 0 0) ∧
    (survive_imu_tracker_integrate_observation ext tc t pose R).tracker.rot =
      ext.survive_kalman_predict_update_state
        (elapsed ext t.so tc (if t.last_data.datamask = 0 then tc else t.obs_kalman_update))
        t.rot (ext.quattoaxisanglemag pose.Rot)
        [1, elapsed ext t.so tc (if t.last_data.datamask = 0 then tc else t.obs_kalman_update),
          elapsed ext t.so tc (if t.last_data.datamask = 0 then tc else t.obs_kalman_update) *
          elapsed ext t.so tc (if t.last_data.datamask = 0 then tc else t.obs_kalman_update) / 2]
        (R.getD 1 0) := by
  rw [(integrate_observation_returns ext tc t pose R hok).1]
  refine ⟨rfl, rfl, ?_, ?_⟩
  · show ext.survive_kalman_predict_update_state _ (observation_seed t tc).position _ _ _ = _
    rw [(observation_seed_states t tc).1]
  · show ext.survive_kalman_predict_update_state _ (observation_seed t tc).rot _ _ _ = _
    rw [(observation_seed_states t tc).2]

/-- C9 at concrete inputs: the Tracking sample tracker receives a pose observation
half a time unit after its first sample; the estimator is driven with elapsed time
1/2 and row `[1, 1/2, 1/8]`. -/
theorem observation_update_witness :
    (sample_tracking 0).so.timebase_hz ≠ 0 ∧
    (survive_imu_tracker_integrate_observation sample_externals 24000000 (sample_tracking 0)
      sample_pose [1, 1]).faulted = false ∧
    (survive_imu_tracker_integrate_observation sample_externals 24000000 (sample_tracking 0)
      sample_pose [1, 1]).log =
      [Event.predict_update KalmanTarget.position (1 / 2) ⟨1, 0, 0⟩ [1, 1 / 2, 1 / 8] 1,
       Event.predict_update KalmanTarget.rot (1 / 2) ⟨0, 0, 0⟩ [1, 1 / 2, 1 / 8] 1] := by
  have hz : (sample_tracking 0).so.timebase_hz ≠ 0 := by decide
  have hok : (survive_imu_tracker_integrate_observation sample_externals 24000000
      (sample_tracking 0) sample_pose [1, 1]).faulted = false := by with_unfolding_all decide
  refine ⟨hz, hok, ?_⟩
  rw [(observation_update sample_externals 24000000 (sample_tracking 0) sample_pose [1, 1]
    hz hok).1]
  with_unfolding_all decide

/-- After the seeding block the tracker is marked initialized. -/
theorem observation_seed_marked (t : SurviveIMUTracker) (tc : survive_timecode) :
    (observation_seed t tc).last_data.datamask ≠ 0 := by
  unfold observation_seed
  split_ifs with h
  · exact Nat.one_ne_zero
  · exact h

/-- A pose-observation call that returns leaves a Tracking tracker of the same
object whose observation timestamp is the timecode of the call. -/
theorem integrate_observation_after (ext : Externals) (tc : survive_timecode)
    (t : SurviveIMUTracker) (pose : SurvivePose) (R : List FLT)
    (hok : (survive_imu_tracker_integrate_observation ext tc t pose R).faulted = false) :
    (survive_imu_tracker_integrate_observation ext tc t pose R).tracker.last_data.datamask ≠ 0 ∧
    (survive_imu_tracker_integrate_observation ext tc t pose R).tracker.obs_kalman_update = tc ∧
    (survive_imu_tracker_integrate_observation ext tc t pose R).tracker.so = t.so := by
  rw [(integrate_observation_returns ext tc t pose R hok).1]
  exact ⟨observation_seed_marked t tc, rfl, observation_seed_so t tc⟩

/-- The reference estimator at elapsed time 0 on a position state, row `[1, 0, 0]`:
the new position entry of each axis is the old one plus the gain `P0 / (P0 + R)`
times the innovation; velocity and acceleration entries do not enter. -/
theorem kalman_zero_time_position (k : survive_kalman_state_t) (z : LinmathVec3d) (R : FLT)
    (axis : Nat) (hn : k.info.dimension_cnt = 3) (hF : k.info.F_fn = F_fn_t.pos_f)
    (hc : k.state_cnt = 3) (haxis : axis < 3) :
    (Kalman.predict_update_state 0 k z [1, 0, 0] R).state.getD (axis * 3) 0 =
      k.state.getD (axis * 3) 0 +
        k.P0 / (k.P0 + R) * (z.get axis - k.state.getD (axis * 3) 0) := by
  unfold Kalman.predict_update_state
  simp only [hn, hF, hc]
  interval_cases axis <;>
  simp [Kalman.gain, Kalman.predict_axis, Kalman.dot, Kalman.entry, Kalman.PHt,
    Kalman.innovation_variance, Kalman.predict_covariance, Kalman.build, F_fn_t.call, pos_f,
    LinmathVec3d.get, List.range, List.range.loop, survive_kalman_state_t.P0]

/-- The position transition model at elapsed time 0 leaves every state entry and
every covariance entry as it is: the predict step mixes nothing. -/
theorem kalman_zero_time_predict (x P Q : List FLT) (axis i j : Nat)
    (haxis : axis < 3) (hi : i < 3) (hj : j < 3) :
    Kalman.predict_axis 3 (pos_f 0) x axis i = x.getD (axis * 3 + i) 0 ∧
    Kalman.entry 3 (Kalman.predict_covariance 3 (pos_f 0) P Q 0) i j = Kalman.entry 3 P i j := by
  constructor
  · interval_cases axis <;> interval_cases i <;>
    simp [Kalman.predict_axis, Kalman.dot, Kalman.entry, pos_f, List.range, List.range.loop]
  · interval_cases i <;> interval_cases j <;>
    simp [Kalman.dot, Kalman.entry, Kalman.predict_covariance, Kalman.build, pos_f, List.range,
      List.range.loop]

/-- A step from `x` toward `z` by a gain `P / (P + R)` with `0 ≤ P` and `0 < R` ends
between `x` and `z`. -/
theorem gain_step_between (x z P R : FLT) (hP : 0 ≤ P) (hR : 0 < R) :
    min x z ≤ x + P / (P + R) * (z - x) ∧ x + P / (P + R) * (z - x) ≤ max x z := by
  have hS : 0 < P + R := by linarith
  have hK0 : 0 ≤ P / (P + R) := div_nonneg hP hS.le
  have hK1 : P / (P + R) ≤ 1 := by
    rw [div_le_one hS]
    linarith
  rcases le_total x z with h | h
  · rw [min_eq_left h, max_eq_right h]
    constructor
    · nlinarith [mul_nonneg hK0 (sub_nonneg.mpr h)]
    · nlinarith [mul_nonneg (sub_nonneg.mpr hK1) (sub_nonneg.mpr h)]
  · rw [min_eq_right h, max_eq_left h]
    constructor
    · nlinarith [mul_nonneg (sub_nonneg.mpr hK1) (sub_nonneg.mpr h)]
    · nlinarith [mul_nonneg hK0 (sub_nonneg.mpr h)]

/-- C10: when a pose observation at timecode `tc` has returned, a second pose
observation with the same timecode (nonzero tick frequency, zero tick difference
between equal timecodes) returns and drives the estimator with elapsed time 0 and
row `[1, 0, 0]`, whose first two entries `[1, 0]` serve the orientation state.  With
the reference estimator, a standard Kalman update, the predict step at elapsed time
0 changes no state entry, and for a position state of three derivatives on three
axes with non-negative leading covariance and positive `R[0]`, the position estimate
of each axis after the second call is the prior estimate moved by the gain
`P0 / (P0 + R[0])` toward the observed value, and lies between the two. -/
theorem zero_time_update (ext : Externals) (tc : survive_timecode) (t0 : SurviveIMUTracker)
    (pose0 pose : SurvivePose) (R0 R : List FLT) (axis : Nat)
    (_hz : t0.so.timebase_hz ≠ 0)
    (hdiff : ∀ a, ext.survive_timecode_difference a a = 0)
    (hfirst : (survive_imu_tracker_integrate_observation ext tc t0 pose0 R0).faulted = false)
    (hK : ext.survive_kalman_predict_update_state = Kalman.predict_update_state)
    (hn : (survive_imu_tracker_integrate_observation ext tc t0 pose0 R0).tracker.position.info.dimension_cnt = 3)
    (hF : (survive_imu_tracker_integrate_observation ext tc t0 pose0 R0).tracker.position.info.F_fn
      = F_fn_t.pos_f)
    (hc : (survive_imu_tracker_integrate_observation ext tc t0 pose0 R0).tracker.position.state_cnt = 3)
    (hP : 0 ≤ (survive_imu_tracker_integrate_observation ext tc t0 pose0 R0).tracker.position.P0)
    (hR : 0 < R.getD 0 0) (haxis : axis < 3) :
    (survive_imu_tracker_integrate_observation ext tc
      (survive_imu_tracker_integrate_observation ext tc t0 pose0 R0).tracker pose R).faulted = false ∧
    (survive_imu_tracker_integrate_observation ext tc
      (survive_imu_tracker_integrate_observation ext tc t0 pose0 R0).tracker pose R).log =
      [Event.predict_update KalmanTarget.position 0 pose.Pos [1, 0, 0] (R.getD 0 0),
       Event.predict_update KalmanTarget.rot 0 (ext.quattoaxisanglemag pose.Rot) [1, 0, 0]
        (R.getD 1 0)] ∧
    List.take 2 [(1 : FLT), 0, 0] = [1, 0] ∧
    (∀ i, i < 3 →
      Kalman.predict_axis 3 (pos_f 0)
        (survive_imu_tracker_integrate_observation ext tc t0 pose0 R0).tracker.position.state axis i =
      (survive_imu_tracker_integrate_observation ext tc t0 pose0 R0).tracker.position.state.getD
        (axis * 3 + i) 0) ∧
    (survive_imu_tracker_integrate_observation ext tc
      (survive_imu_tracker_integrate_observation ext tc t0 pose0 R0).tracker pose
        R).tracker.position.state.getD (axis * 3) 0 =
      (survive_imu_tracker_integrate_observation ext tc t0 pose0 R0).tracker.position.state.getD
          (axis * 3) 0 +
        (survive_imu_tracker_integrate_observation ext tc t0 pose0 R0).tracker.position.P0 /
          ((survive_imu_tracker_integrate_observation ext tc t0 pose0 R0).tracker.position.P0 +
            R.getD 0 0) *
        (pose.Pos.get axis -
          (survive_imu_tracker_integrate_observation ext tc t0 pose0 R0).tracker.position.state.getD
            (axis * 3) 0) ∧
    min ((survive_imu_tracker_integrate_observation ext tc t0 pose0 R0).tracker.position.state.getD
          (axis * 3) 0) (pose.Pos.get axis) ≤
      (survive_imu_tracker_integrate_observation ext tc
        (survive_imu_tracker_integrate_observation ext tc t0 pose0 R0).tracker pose
          R).tracker.position.state.getD (axis * 3) 0 ∧
    (survive_imu_tracker_integrate_observation ext tc
        (survive_imu_tracker_integrate_observation ext tc t0 pose0 R0).tracker pose
          R).tracker.position.state.getD (axis * 3) 0 ≤
      max ((survive_imu_tracker_integrate_observation ext tc t0 pose0 R0).tracker.position.state.getD
          (axis * 3) 0) (pose.Pos.get axis) := by
  obtain ⟨hmark, hclock, -⟩ := integrate_observation_after ext tc t0 pose0 R0 hfirst
  generalize (survive_imu_tracker_integrate_observation ext tc t0 pose0 R0).tracker = t1 at *
  have hdt : elapsed ext t1.so tc
      (if t1.last_data.datamask = 0 then tc else t1.obs_kalman_update) = 0 := by
    rw [if_neg hmark, hclock]
    exact elapsed_self ext t1.so hdiff tc
  have hok : (survive_imu_tracker_integrate_observation ext tc t1 pose R).faulted = false := by
    by_cases h : elapsed ext (observation_seed t1 tc).so tc
          (observation_seed t1 tc).obs_kalman_update ≥ 0 ∧
        elapsed ext (observation_seed t1 tc).so tc (observation_seed t1 tc).obs_kalman_update < 10
    · rw [integrate_observation_ok ext tc t1 pose R h]
      rfl
    · rw [observation_seed_clock, observation_seed_so, hdt] at h
      norm_num at h
  have hrun := (integrate_observation_returns ext tc t1 pose R hok).1
  rw [hdt] at hrun
  have hpos : (survive_imu_tracker_integrate_observation ext tc t1 pose R).tracker.position =
      Kalman.predict_update_state 0 t1.position pose.Pos [1, 0, 0] (R.getD 0 0) := by
    rw [hrun]
    show ext.survive_kalman_predict_update_state 0 (observation_seed t1 tc).position pose.Pos
      [1, 0, 0 * 0 / 2] (R.getD 0 0) = _
    rw [(observation_seed_states t1 tc).1, hK]
    norm_num
  have hstep := kalman_zero_time_position t1.position pose.Pos (R.getD 0 0) axis hn hF hc haxis
  refine ⟨hok, ?_, rfl, ?_, ?_, ?_, ?_⟩
  · rw [hrun]
    simp [integrate_observation_fuse]
  · exact fun i hi => (kalman_zero_time_predict t1.position.state [] [] axis i 0 haxis hi
      (by norm_num)).1
  · rw [hpos, hstep]
  · rw [hpos, hstep]
    exact (gain_step_between _ _ _ _ hP hR).1
  · rw [hpos, hstep]
    exact (gain_step_between _ _ _ _ hP hR).2

/-- C10 at concrete inputs: the sample tracker with leading covariances 4 receives
the sample pose twice at timecode 100, variances 1.  The first call leaves the
position estimate of the first axis at 4/5; the second call returns, and moves it to
8/9, between 4/5 and the observed value 1. -/
theorem zero_time_update_witness :
    (sample_tracker_with_P0 4 4).so.timebase_hz ≠ 0 ∧
    (∀ a, sample_externals.survive_timecode_difference a a = 0) ∧
    (survive_imu_tracker_integrate_observation sample_externals 100 (sample_tracker_with_P0 4 4)
      sample_pose [1, 1]).faulted = false ∧
    (survive_imu_tracker_integrate_observation sample_externals 100 (sample_tracker_with_P0 4 4)
      sample_pose [1, 1]).tracker.position.state.getD 0 0 = 4 / 5 ∧
    0 ≤ (survive_imu_tracker_integrate_observation sample_externals 100
      (sample_tracker_with_P0 4 4) sample_pose [1, 1]).tracker.position.P0 ∧
    (survive_imu_tracker_integrate_observation sample_externals 100
      (survive_imu_tracker_integrate_observation sample_externals 100 (sample_tracker_with_P0 4 4)
        sample_pose [1, 1]).tracker sample_pose [1, 1]).faulted = false ∧
    (survive_imu_tracker_integrate_observation sample_externals 100
      (survive_imu_tracker_integrate_observation sample_externals 100 (sample_tracker_with_P0 4 4)
        sample_pose [1, 1]).tracker sample_pose [1, 1]).tracker.position.state.getD 0 0 = 8 / 9 ∧
    min ((survive_imu_tracker_integrate_observation sample_externals 100
          (sample_tracker_with_P0 4 4) sample_pose [1, 1]).tracker.position.state.getD (0 * 3) 0)
        (sample_pose.Pos.get 0) ≤
      (survive_imu_tracker_integrate_observation sample_externals 100
        (survive_imu_tracker_integrate_observation sample_externals 100
          (sample_tracker_with_P0 4 4) sample_pose [1, 1]).tracker sample_pose
          [1, 1]).tracker.position.state.getD (0 * 3) 0 ∧
    (survive_imu_tracker_integrate_observation sample_externals 100
        (survive_imu_tracker_integrate_observation sample_externals 100
          (sample_tracker_with_P0 4 4) sample_pose [1, 1]).tracker sample_pose
          [1, 1]).tracker.position.state.getD (0 * 3) 0 ≤
      max ((survive_imu_tracker_integrate_observation sample_externals 100
          (sample_tracker_with_P0 4 4) sample_pose [1, 1]).tracker.position.state.getD (0 * 3) 0)
        (sample_pose.Pos.get 0) := by
  have hz : (sample_tracker_with_P0 4 4).so.timebase_hz ≠ 0 := by decide
  have hdiff : ∀ a, sample_externals.survive_timecode_difference a a = 0 :=
    fun a => by simp [sample_externals]
  have hfirst : (survive_imu_tracker_integrate_observation sample_externals 100
      (sample_tracker_with_P0 4 4) sample_pose [1, 1]).faulted = false := by
    with_unfolding_all decide
  have hx : (survive_imu_tracker_integrate_observation sample_externals 100
      (sample_tracker_with_P0 4 4) sample_pose [1, 1]).tracker.position.state.getD 0 0
        = 4 / 5 := by
    with_unfolding_all decide
  have hP : 0 ≤ (survive_imu_tracker_integrate_observation sample_externals 100
      (sample_tracker_with_P0 4 4) sample_pose [1, 1]).tracker.position.P0 := by
    with_unfolding_all decide
  have key := zero_time_update sample_externals 100 (sample_tracker_with_P0 4 4) sample_pose
    sample_pose [1, 1] [1, 1] 0 hz hdiff hfirst rfl (by with_unfolding_all decide)
    (by with_unfolding_all decide) (by with_unfolding_all decide) hP
    (by with_unfolding_all decide) (by decide)
  refine ⟨hz, hdiff, hfirst, hx, hP, key.1, ?_, key.2.2.2.2.2.1, key.2.2.2.2.2.2⟩
  with_unfolding_all decide

/-- C11, as stated, fails: with the identity orientation and the accelerometer
reading `[0, 0, 9.8066]`, `RotateAccel` returns `[0, 0, 9.8066 * 8.8066]`, not
`[0, 0, 0]`. -/
theorem gravity_cancel_counterexample :
    RotateAccel sample_externals quat_identity ⟨0, 0, 98066 / 10000⟩ =
      ⟨0, 0, 98066 / 10000 * (88066 / 10000)⟩ ∧
    RotateAccel sample_externals quat_identity ⟨0, 0, 98066 / 10000⟩ ≠ ⟨0, 0, 0⟩ := by
  have h : RotateAccel sample_externals quat_identity ⟨0, 0, 98066 / 10000⟩ =
      ⟨0, 0, 98066 / 10000 * (88066 / 10000)⟩ := by
    simp only [RotateAccel, sample_externals, quatrotatevector, quat_identity, cross3d, add3d,
      scale3d, LinmathVec3d.mk.injEq]
    norm_num
  refine ⟨h, ?_⟩
  rw [h]
  intro h0
  have hz := congrArg LinmathVec3d.z h0
  norm_num at hz

/-- C11, amended: `RotateAccel` returns `9.8066 * (rotate(rot, accel) + (0, 0, -1))`.
When the rotation leaves the accelerometer vector as it is (identity orientation),
a reading of one g, `accel = [0, 0, 1]`, gives exactly `[0, 0, 0]`, and a reading
`[0, 0, a]` gives `[0, 0, 9.8066 * (a - 1)]`. -/
theorem gravity_cancel (ext : Externals) (rot : LinmathQuat) (a : FLT)
    (hrot : ∀ v, ext.quatrotatevector rot v = v) :
    (∀ accel, RotateAccel ext rot accel =
      scale3d (add3d (ext.quatrotatevector rot accel) ⟨0, 0, -1⟩) (98066 / 10000)) ∧
    RotateAccel ext rot ⟨0, 0, 1⟩ = ⟨0, 0, 0⟩ ∧
    RotateAccel ext rot ⟨0, 0, a⟩ = ⟨0, 0, 98066 / 10000 * (a - 1)⟩ := by
  refine ⟨fun _ => rfl, ?_, ?_⟩
  · simp [RotateAccel, hrot, add3d, scale3d]
  · simp only [RotateAccel, hrot, add3d, scale3d, LinmathVec3d.mk.injEq]
    refine ⟨by ring, by ring, by ring⟩

/-- C11 (amended) at concrete inputs: the sample rotation by the identity
quaternion leaves every vector as it is, and a reading of one g cancels. -/
theorem gravity_cancel_witness :
    (∀ v, sample_externals.quatrotatevector quat_identity v = v) ∧
    RotateAccel sample_externals quat_identity ⟨0, 0, 1⟩ = ⟨0, 0, 0⟩ := by
  have hrot : ∀ v, sample_externals.quatrotatevector quat_identity v = v := by
    intro v
    simp [sample_externals, quatrotatevector, quat_identity, cross3d, add3d, scale3d]
  exact ⟨hrot, (gravity_cancel sample_externals quat_identity 1 hrot).2.1⟩

/-- C12: `rot_f t` is the row-major matrix `[[1, t], [0, 1]]` and `pos_f t` the
row-major matrix `[[1, t, t*t/2], [0, 1, t], [0, 0, 1]]`; construction hands the
estimator `rot_f` with 2 derivatives per axis on 3 axes for the orientation and
`pos_f` with 3 derivatives per axis on 3 axes for the position, with the configured
noise scalars on the diagonals: `rot_Q_per_sec` entries 0 and 3, `pos_Q_per_sec`
entries 0 and 4, and entry 8 fixed at 1. -/
theorem transition_models (ext : Externals) (so : SurviveObject) (t : FLT) :
    rot_f t = [1, t, 0, 1] ∧
    to_matrix 2 (rot_f t) = !![1, t; 0, 1] ∧
    pos_f t = [1, t, t * t / 2, 0, 1, t, 0, 0, 1] ∧
    to_matrix 3 (pos_f t) = !![1, t, t * t / 2; 0, 1, t; 0, 0, 1] ∧
    F_fn_t.rot_f.call t = rot_f t ∧
    F_fn_t.pos_f.call t = pos_f t ∧
    (survive_imu_tracker_init ext so).rot_Q_per_sec =
      [so.ctx.config.POSE_ROT_VARIANCE_SEC, 0, 0, so.ctx.config.VELOCITY_ROT_VARIANCE_SEC] ∧
    (survive_imu_tracker_init ext so).pos_Q_per_sec =
      [so.ctx.config.POSE_POSITION_VARIANCE_SEC, 0, 0,
       0, so.ctx.config.VELOCITY_POSITION_VARIANCE_SEC, 0,
       0, 0, 1] ∧
    (survive_imu_tracker_init ext so).rot =
      ext.survive_kalman_state_init 2 F_fn_t.rot_f
        (survive_imu_tracker_init ext so).rot_Q_per_sec none 3 none ∧
    (survive_imu_tracker_init ext so).position =
      ext.survive_kalman_state_init 3 F_fn_t.pos_f
        (survive_imu_tracker_init ext so).pos_Q_per_sec none 3 none := by
  refine ⟨rfl, ?_, rfl, ?_, rfl, rfl, rfl, rfl, rfl, rfl⟩
  · ext i j
    fin_cases i <;> fin_cases j <;> simp [to_matrix, rot_f, Matrix.vecHead, Matrix.vecTail]
  · ext i j
    fin_cases i <;> fin_cases j <;> simp [to_matrix, pos_f, Matrix.vecHead, Matrix.vecTail]

/-- C19: as matrices, `pos_f s * pos_f t = pos_f (s + t)` and
`rot_f s * rot_f t = rot_f (s + t)`, and `pos_f 0` and `rot_f 0` are the identity
matrices; so applying the model for elapsed time 0 leaves a state vector as it is,
and applying it for `t` and then for `s` is applying it once for `s + t`. -/
theorem transition_models_compose (s t : FLT) :
    to_matrix 3 (pos_f s) * to_matrix 3 (pos_f t) = to_matrix 3 (pos_f (s + t)) ∧
    to_matrix 2 (rot_f s) * to_matrix 2 (rot_f t) = to_matrix 2 (rot_f (s + t)) ∧
    to_matrix 3 (pos_f 0) = 1 ∧
    to_matrix 2 (rot_f 0) = 1 ∧
    (∀ x : Fin 3 → FLT,
      (to_matrix 3 (pos_f 0)).mulVec x = x ∧
      (to_matrix 3 (pos_f s)).mulVec ((to_matrix 3 (pos_f t)).mulVec x) =
        (to_matrix 3 (pos_f (s + t))).mulVec x) ∧
    (∀ x : Fin 2 → FLT,
      (to_matrix 2 (rot_f 0)).mulVec x = x ∧
      (to_matrix 2 (rot_f s)).mulVec ((to_matrix 2 (rot_f t)).mulVec x) =
        (to_matrix 2 (rot_f (s + t))).mulVec x) := by
  have hpos : to_matrix 3 (pos_f s) * to_matrix 3 (pos_f t) = to_matrix 3 (pos_f (s + t)) := by
    ext i j
    fin_cases i <;> fin_cases j <;>
      simp [to_matrix, pos_f, Matrix.mul_apply, Fin.sum_univ_three]
    all_goals ring
  have hrot : to_matrix 2 (rot_f s) * to_matrix 2 (rot_f t) = to_matrix 2 (rot_f (s + t)) := by
    ext i j
    fin_cases i <;> fin_cases j <;>
      simp [to_matrix, rot_f, Matrix.mul_apply, Fin.sum_univ_two]
    all_goals ring
  have hpos0 : to_matrix 3 (pos_f 0) = 1 := by
    ext i j
    fin_cases i <;> fin_cases j <;> simp [to_matrix, pos_f]
  have hrot0 : to_matrix 2 (rot_f 0) = 1 := by
    ext i j
    fin_cases i <;> fin_cases j <;> simp [to_matrix, rot_f]
  refine ⟨hpos, hrot, hpos0, hrot0, fun x => ⟨?_, ?_⟩, fun x => ⟨?_, ?_⟩⟩
  · rw [hpos0, Matrix.one_mulVec]
  · rw [Matrix.mulVec_mulVec, hpos]
  · rw [hrot0, Matrix.one_mulVec]
  · rw [Matrix.mulVec_mulVec, hrot]

/-- The attitude pre-filter in closed form: `integralFB` is returned as it is (the
integral gain is 0) and the quaternion is the renormalized sum of `q` and the
correction built from the scaled, corrected gyro vector. -/
theorem mahony_ahrs_eq (ext : Externals) (tracker : SurviveIMUTracker) (q : LinmathQuat)
    (gyro accel : LinmathVec3d) :
    mahony_ahrs ext tracker q gyro accel =
      (tracker.integralFB,
       ext.quatnormalize (quatadd q
        (mahony_correction q (mahony_rate tracker q gyro accel (ext.magnitude3d accel))))) := by
  unfold mahony_ahrs mahony_rate mahony_correction mahony_reference
  by_cases h : ext.magnitude3d accel ≠ 0
  · simp only [if_pos h, int_gain, prop_gain, gt_iff_lt, lt_self_iff_false, if_false]
    norm_num
  · simp only [if_neg h]

/-- The four hand-written correction components are the Hamilton product of `q`
with the pure quaternion of the gyro vector. -/
theorem mahony_correction_eq_quatmul (q : LinmathQuat) (g : LinmathVec3d) :
    mahony_correction q g = quatmul q (pure_quat g) := by
  simp only [mahony_correction, quatmul, pure_quat, LinmathQuat.mk.injEq]
  refine ⟨by ring, by ring, by ring, by ring⟩

/-- The correction is orthogonal to `q`, so the squared norm of the sum is the sum
of the squared norms. -/
theorem mahony_correction_orthogonal (q : LinmathQuat) (g : LinmathVec3d) :
    quat_dot q (mahony_correction q g) = 0 ∧
    quat_normsq (quatadd q (mahony_correction q g)) =
      quat_normsq q + quat_normsq (mahony_correction q g) := by
  constructor
  · simp only [quat_dot, mahony_correction]
    ring
  · simp only [quat_normsq, quat_dot, mahony_correction, quatadd]
    ring

/-- The squared norm of a quaternion is not negative. -/
theorem quat_normsq_nonneg (q : LinmathQuat) : 0 ≤ quat_normsq q := by
  simp only [quat_normsq, quat_dot]
  nlinarith [mul_self_nonneg q.w, mul_self_nonneg q.x, mul_self_nonneg q.y, mul_self_nonneg q.z]

/-- C15: when the magnitude of the accelerometer vector is exactly 0,
`mahony_ahrs` applies no gravity correction: its quaternion is
`normalize(q + q ⊗ (0, g * 0.5/imu_freq))` with `⊗` the Hamilton product, and
`integralFB` is unchanged. -/
theorem mahony_zero_accel (ext : Externals) (tracker : SurviveIMUTracker) (q : LinmathQuat)
    (gyro accel : LinmathVec3d) (hmag : ext.magnitude3d accel = 0) :
    (mahony_ahrs ext tracker q gyro accel).2 =
      ext.quatnormalize (quatadd q
        (quatmul q (pure_quat (scale3d gyro ((1 / 2) / (tracker.so.imu_freq : FLT)))))) ∧
    (mahony_ahrs ext tracker q gyro accel).1 = tracker.integralFB := by
  rw [mahony_ahrs_eq, mahony_correction_eq_quatmul]
  refine ⟨?_, rfl⟩
  simp only [mahony_rate, hmag, ne_eq, not_true_eq_false, if_false]

/-- C15 at concrete inputs: the sample collaborators give the zero accelerometer
vector magnitude 0; with the identity quaternion and gyro `(1500, 0, 0)` at 1 kHz
the pre-filter hands `(1, 3/4, 0, 0)` to the renormalization. -/
theorem mahony_zero_accel_witness :
    sample_externals.magnitude3d ⟨0, 0, 0⟩ = 0 ∧
    (mahony_ahrs sample_externals sample_tracker quat_identity ⟨1500, 0, 0⟩ ⟨0, 0, 0⟩).2 =
      ⟨1, 3 / 4, 0, 0⟩ ∧
    (mahony_ahrs sample_externals sample_tracker quat_identity ⟨1500, 0, 0⟩ ⟨0, 0, 0⟩).1 =
      sample_tracker.integralFB := by
  have hmag : sample_externals.magnitude3d ⟨0, 0, 0⟩ = 0 := by with_unfolding_all decide
  have key := mahony_zero_accel sample_externals sample_tracker quat_identity ⟨1500, 0, 0⟩
    ⟨0, 0, 0⟩ hmag
  refine ⟨hmag, ?_, key.2⟩
  rw [key.1]
  with_unfolding_all decide

/-- C16: when the magnitude `|a|` of the accelerometer vector is not 0,
`mahony_ahrs` replaces `q` by `normalize(q + q ⊗ (0, g'))`, with `⊗` the Hamilton
product, `g' = (g + 2 * 0.5 * (a/|a| × v)) * 0.5/imu_freq` and
`v = (x*z - w*y, w*x + y*z, w*w - 0.5 + z*z)`; `integralFB` is unchanged, and the
hand-written correction components are the Hamilton product for every gyro
vector. -/
theorem mahony_formula (ext : Externals) (tracker : SurviveIMUTracker) (q : LinmathQuat)
    (gyro accel : LinmathVec3d) (hmag : ext.magnitude3d accel ≠ 0) :
    (mahony_ahrs ext tracker q gyro accel).2 =
      ext.quatnormalize (quatadd q (quatmul q (pure_quat
        (scale3d
          (add3d gyro
            (scale3d
              (cross3d (scale3d accel (1 / ext.magnitude3d accel))
                ⟨q.x * q.z - q.w * q.y, q.w * q.x + q.y * q.z, q.w * q.w - 1 / 2 + q.z * q.z⟩)
              (2 * (1 / 2))))
          ((1 / 2) / (tracker.so.imu_freq : FLT)))))) ∧
    (mahony_ahrs ext tracker q gyro accel).1 = tracker.integralFB ∧
    (∀ g : LinmathVec3d,
      (⟨-q.x * g.x - q.y * g.y - q.z * g.z,
        q.w * g.x + q.y * g.z - q.z * g.y,
        q.w * g.y - q.x * g.z + q.z * g.x,
        q.w * g.z + q.x * g.y - q.y * g.x⟩ : LinmathQuat) = quatmul q (pure_quat g)) := by
  rw [mahony_ahrs_eq, mahony_correction_eq_quatmul]
  refine ⟨?_, rfl, fun g => mahony_correction_eq_quatmul q g⟩
  simp only [mahony_rate, mahony_reference, if_pos hmag]

/-- C16 at concrete inputs: the sample collaborators give the accelerometer vector
`(1, 0, 0)` magnitude 1; with the identity quaternion and zero gyro at 1 kHz the
pre-filter hands `(1, 0, -1/4000, 0)` to the renormalization. -/
theorem mahony_formula_witness :
    sample_externals.magnitude3d ⟨1, 0, 0⟩ ≠ 0 ∧
    (mahony_ahrs sample_externals sample_tracker quat_identity ⟨0, 0, 0⟩ ⟨1, 0, 0⟩).2 =
      ⟨1, 0, -1 / 4000, 0⟩ ∧
    (mahony_ahrs sample_externals sample_tracker quat_identity ⟨0, 0, 0⟩ ⟨1, 0, 0⟩).1 =
      sample_tracker.integralFB := by
  have hmag : sample_externals.magnitude3d ⟨1, 0, 0⟩ ≠ 0 := by with_unfolding_all decide
  have key := mahony_formula sample_externals sample_tracker quat_identity ⟨0, 0, 0⟩
    ⟨1, 0, 0⟩ hmag
  refine ⟨hmag, ?_, key.2.1⟩
  rw [key.1]
  have hso : sample_tracker.so = sample_object := rfl
  simp only [hso, sample_object, sample_externals, quatadd, quatmul, pure_quat, scale3d, add3d,
    cross3d, quat_identity, LinmathQuat.mk.injEq]
  norm_num

/-- C17: for a unit quaternion `q = (w, x, y, z)` the vector
`v = (x*z - w*y, w*x + y*z, w*w - 0.5 + z*z)` of `mahony_ahrs` is one half of the up
axis `(0, 0, 1)` rotated by the inverse (conjugate) of `q`.  When the normalized
accelerometer vector is parallel to it (a multiple `k` of it), the attitude error,
their cross product, is zero, and with zero gyro, renormalization leaving `q` as it
is, `mahony_ahrs` returns `q`; for the identity quaternion this is the case for
every accelerometer vector `(0, 0, c)`. -/
theorem mahony_reference_direction (ext : Externals) (tracker : SurviveIMUTracker)
    (q : LinmathQuat) (accel : LinmathVec3d) (k c : FLT)
    (hunit : quat_normsq q = 1)
    (hpar : scale3d accel (1 / ext.magnitude3d accel) =
      scale3d ⟨q.x * q.z - q.w * q.y, q.w * q.x + q.y * q.z, q.w * q.w - 1 / 2 + q.z * q.z⟩ k)
    (hnorm : ext.quatnormalize q = q)
    (hid : ext.quatnormalize quat_identity = quat_identity) :
    (⟨q.x * q.z - q.w * q.y, q.w * q.x + q.y * q.z, q.w * q.w - 1 / 2 + q.z * q.z⟩ :
        LinmathVec3d) =
      scale3d (quatrotatevector (quatgetconjugate q) ⟨0, 0, 1⟩) (1 / 2) ∧
    cross3d (scale3d accel (1 / ext.magnitude3d accel))
      ⟨q.x * q.z - q.w * q.y, q.w * q.x + q.y * q.z, q.w * q.w - 1 / 2 + q.z * q.z⟩
        = ⟨0, 0, 0⟩ ∧
    (mahony_ahrs ext tracker q ⟨0, 0, 0⟩ accel).2 = q ∧
    (mahony_ahrs ext tracker quat_identity ⟨0, 0, 0⟩ ⟨0, 0, c⟩).2 = quat_identity := by
  have hq : q.w * q.w + q.x * q.x + q.y * q.y + q.z * q.z = 1 := by
    simpa [quat_normsq, quat_dot] using hunit
  have hcross : cross3d (scale3d accel (1 / ext.magnitude3d accel))
      ⟨q.x * q.z - q.w * q.y, q.w * q.x + q.y * q.z, q.w * q.w - 1 / 2 + q.z * q.z⟩
        = ⟨0, 0, 0⟩ := by
    rw [hpar]
    simp only [cross3d, scale3d, LinmathVec3d.mk.injEq]
    refine ⟨by ring, by ring, by ring⟩
  refine ⟨?_, hcross, ?_, ?_⟩
  · simp only [quatrotatevector, quatgetconjugate, cross3d, add3d, scale3d,
      LinmathVec3d.mk.injEq]
    refine ⟨by ring, by ring, ?_⟩
    linear_combination hq
  · rw [mahony_ahrs_eq]
    have hrate : mahony_rate tracker q ⟨0, 0, 0⟩ accel (ext.magnitude3d accel) = ⟨0, 0, 0⟩ := by
      unfold mahony_rate mahony_reference
      rw [hcross]
      split_ifs <;> simp [add3d, scale3d]
    rw [hrate]
    have hzero : quatadd q (mahony_correction q ⟨0, 0, 0⟩) = q := by
      simp [quatadd, mahony_correction]
    rw [hzero, hnorm]
  · rw [mahony_ahrs_eq]
    have hrate : mahony_rate tracker quat_identity ⟨0, 0, 0⟩ ⟨0, 0, c⟩
        (ext.magnitude3d ⟨0, 0, c⟩) = ⟨0, 0, 0⟩ := by
      unfold mahony_rate mahony_reference
      split_ifs <;> simp [add3d, scale3d, cross3d, quat_identity]
    rw [hrate]
    have hzero : quatadd quat_identity (mahony_correction quat_identity ⟨0, 0, 0⟩)
        = quat_identity := by
      simp [quatadd, mahony_correction, quat_identity]
    rw [hzero, hid]

/-- C17 at concrete inputs: the unit quaternion `(3/5, 4/5, 0, 0)` has
`v = (0, 12/25, -7/50)`; the accelerometer vector `(0, 24, -7)`, of sample magnitude
31, is `50/31` times `v` after normalization, and with zero gyro the pre-filter
returns the quaternion unchanged. -/
theorem mahony_reference_direction_witness :
    quat_normsq ⟨3 / 5, 4 / 5, 0, 0⟩ = 1 ∧
    scale3d (quatrotatevector (quatgetconjugate ⟨3 / 5, 4 / 5, 0, 0⟩) ⟨0, 0, 1⟩) (1 / 2) =
      ⟨0, 12 / 25, -7 / 50⟩ ∧
    (mahony_ahrs sample_externals sample_tracker ⟨3 / 5, 4 / 5, 0, 0⟩ ⟨0, 0, 0⟩
      ⟨0, 24, -7⟩).2 = ⟨3 / 5, 4 / 5, 0, 0⟩ := by
  have hunit : quat_normsq ⟨3 / 5, 4 / 5, 0, 0⟩ = 1 := by with_unfolding_all decide
  have key := mahony_reference_direction sample_externals sample_tracker ⟨3 / 5, 4 / 5, 0, 0⟩
    ⟨0, 24, -7⟩ (50 / 31) 1 hunit (by with_unfolding_all decide) rfl rfl
  refine ⟨hunit, ?_, key.2.2.1⟩
  rw [← key.1]
  with_unfolding_all decide

/-- C18: the correction quaternion `mahony_ahrs` adds to `q` is orthogonal to `q`,
so the squared norm of the sum is the sum of the squared norms and is at least the
squared norm of `q`.  Hence for a nonzero `q` the quaternion handed to
`quatnormalize` is nonzero; and when `quatnormalize` divides it by its magnitude
`n`, that magnitude is not zero and the result of `mahony_ahrs` has unit norm. -/
theorem mahony_renormalization (ext : Externals) (tracker : SurviveIMUTracker)
    (q : LinmathQuat) (gyro accel : LinmathVec3d) :
    (mahony_ahrs ext tracker q gyro accel).2 =
      ext.quatnormalize (quatadd q
        (mahony_correction q (mahony_rate tracker q gyro accel (ext.magnitude3d accel)))) ∧
    quat_dot q
      (mahony_correction q (mahony_rate tracker q gyro accel (ext.magnitude3d accel))) = 0 ∧
    quat_normsq (quatadd q
        (mahony_correction q (mahony_rate tracker q gyro accel (ext.magnitude3d accel)))) =
      quat_normsq q + quat_normsq
        (mahony_correction q (mahony_rate tracker q gyro accel (ext.magnitude3d accel))) ∧
    quat_normsq q ≤ quat_normsq (quatadd q
        (mahony_correction q (mahony_rate tracker q gyro accel (ext.magnitude3d accel)))) ∧
    (quat_normsq q ≠ 0 →
      quat_normsq (quatadd q
        (mahony_correction q (mahony_rate tracker q gyro accel (ext.magnitude3d accel)))) ≠ 0 ∧
      quatadd q
        (mahony_correction q (mahony_rate tracker q gyro accel (ext.magnitude3d accel)))
          ≠ ⟨0, 0, 0, 0⟩ ∧
      ∀ n : FLT,
        n * n = quat_normsq (quatadd q
          (mahony_correction q (mahony_rate tracker q gyro accel (ext.magnitude3d accel)))) →
        ext.quatnormalize (quatadd q
          (mahony_correction q (mahony_rate tracker q gyro accel (ext.magnitude3d accel)))) =
          quatscale (quatadd q
            (mahony_correction q (mahony_rate tracker q gyro accel (ext.magnitude3d accel))))
            (1 / n) →
        n ≠ 0 ∧ quat_normsq (mahony_ahrs ext tracker q gyro accel).2 = 1) := by
  rw [mahony_ahrs_eq]
  generalize mahony_rate tracker q gyro accel (ext.magnitude3d accel) = g
  obtain ⟨hdot, hsum⟩ := mahony_correction_orthogonal q g
  have hle : quat_normsq q ≤ quat_normsq (quatadd q (mahony_correction q g)) := by
    rw [hsum]
    linarith [quat_normsq_nonneg (mahony_correction q g)]
  refine ⟨rfl, hdot, hsum, hle, ?_⟩
  intro hq
  have hpos : 0 < quat_normsq (quatadd q (mahony_correction q g)) :=
    lt_of_lt_of_le (lt_of_le_of_ne (quat_normsq_nonneg q) (Ne.symm hq)) hle
  refine ⟨ne_of_gt hpos, ?_, ?_⟩
  · intro h0
    rw [h0] at hpos
    simp [quat_normsq, quat_dot] at hpos
  · intro n hn hscale
    have hn0 : n ≠ 0 := by
      intro h
      rw [h, mul_zero] at hn
      exact absurd hn.symm (ne_of_gt hpos)
    refine ⟨hn0, ?_⟩
    show quat_normsq (ext.quatnormalize (quatadd q (mahony_correction q g))) = 1
    rw [hscale]
    have hexp : quat_normsq (quatscale (quatadd q (mahony_correction q g)) (1 / n)) =
        quat_normsq (quatadd q (mahony_correction q g)) * ((1 / n) * (1 / n)) := by
      simp only [quat_normsq, quat_dot, quatscale]
      ring
    rw [hexp, ← hn]
    field_simp

/-- C18 at concrete inputs: with the identity quaternion, gyro `(1500, 0, 0)` at
1 kHz and no accelerometer signal, the quaternion handed to the renormalization is
`(1, 3/4, 0, 0)`, of magnitude `5/4`; the result `(4/5, 3/5, 0, 0)` has unit norm. -/
theorem mahony_renormalization_witness :
    quat_normsq quat_identity ≠ 0 ∧
    quatadd quat_identity (mahony_correction quat_identity
      (mahony_rate sample_tracker quat_identity ⟨1500, 0, 0⟩ ⟨0, 0, 0⟩
        (sample_externals_normalizing.magnitude3d ⟨0, 0, 0⟩))) = ⟨1, 3 / 4, 0, 0⟩ ∧
    (mahony_ahrs sample_externals_normalizing sample_tracker quat_identity ⟨1500, 0, 0⟩
      ⟨0, 0, 0⟩).2 = ⟨4 / 5, 3 / 5, 0, 0⟩ ∧
    quat_normsq (mahony_ahrs sample_externals_normalizing sample_tracker quat_identity
      ⟨1500, 0, 0⟩ ⟨0, 0, 0⟩).2 = 1 := by
  have hq : quat_normsq quat_identity ≠ 0 := by with_unfolding_all decide
  have key := ((mahony_renormalization sample_externals_normalizing sample_tracker
    quat_identity ⟨1500, 0, 0⟩ ⟨0, 0, 0⟩).2.2.2.2 hq).2.2 (5 / 4)
    (by with_unfolding_all decide) (by with_unfolding_all decide)
  exact ⟨hq, by with_unfolding_all decide, by with_unfolding_all decide, key.2⟩

/-- The fusing body of the IMU entry point never writes `last_data`. -/
theorem integrate_imu_fuse_last_data (ext : Externals) (t : SurviveIMUTracker)
    (d : PoserDataIMU) (dt : FLT) (rot : LinmathQuat) (log : List Event) :
    (integrate_imu_fuse ext t d dt rot log).tracker.last_data = t.last_data := by
  unfold integrate_imu_fuse integrate_imu_prefilter
  split_ifs <;> rfl

/-- C13, as stated, fails: the sample tracker is Tracking since its first sample at
timecode 0; the IMU sample at timecode 48000 is integrated without fault, and
`last_data` is still the first sample, not the one just integrated. -/
theorem last_data_counterexample :
    (sample_tracking 0).last_data = sample_imu 0 ∧
    (survive_imu_tracker_integrate_imu sample_externals (sample_tracking 0)
      (sample_imu 48000)).faulted = false ∧
    (survive_imu_tracker_integrate_imu sample_externals (sample_tracking 0)
      (sample_imu 48000)).tracker.last_data = sample_imu 0 ∧
    (survive_imu_tracker_integrate_imu sample_externals (sample_tracking 0)
      (sample_imu 48000)).tracker.last_data ≠ sample_imu 48000 := by
  refine ⟨rfl, ?_, ?_, ?_⟩
  · with_unfolding_all decide
  · with_unfolding_all decide
  · with_unfolding_all decide

/-- C13, amended: the first IMU call on an uninitialized tracker stores the sample
in `last_data`; every later IMU call, whether it returns or faults, leaves
`last_data` exactly as it was. -/
theorem last_data_written_once (ext : Externals) (t : SurviveIMUTracker) (d : PoserDataIMU) :
    (t.last_data.datamask = 0 →
      (survive_imu_tracker_integrate_imu ext t d).faulted = false ∧
      (survive_imu_tracker_integrate_imu ext t d).tracker.last_data = d) ∧
    (t.last_data.datamask ≠ 0 →
      (survive_imu_tracker_integrate_imu ext t d).tracker.last_data = t.last_data) := by
  constructor
  · intro h
    rw [integrate_imu_first ext t d h]
    exact ⟨rfl, rfl⟩
  · intro h
    by_cases hdt : elapsed ext t.so d.timecode t.imu_kalman_update > 0
    · by_cases h1 : elapsed ext t.so d.timecode t.imu_kalman_update > 1
      · by_cases h10 : elapsed ext t.so d.timecode t.imu_kalman_update < 10
        · rw [integrate_imu_warned ext t d h hdt h1 h10]
          exact integrate_imu_fuse_last_data ext t d _ _ _
        · rw [integrate_imu_too_long ext t d h hdt h1 h10]
      · rw [integrate_imu_plain ext t d h hdt h1]
        exact integrate_imu_fuse_last_data ext t d _ _ _
    · rw [integrate_imu_nonpositive ext t d h hdt]

/-- C13 (amended) at concrete inputs: the first sample at timecode 7 is stored by
the fresh sample tracker; the sample at timecode 48000 leaves the stored first
sample of the Tracking sample tracker in place. -/
theorem last_data_written_once_witness :
    sample_tracker.last_data.datamask = 0 ∧
    (survive_imu_tracker_integrate_imu sample_externals sample_tracker
      (sample_imu 7)).tracker.last_data = sample_imu 7 ∧
    (sample_tracking 0).last_data.datamask ≠ 0 ∧
    (survive_imu_tracker_integrate_imu sample_externals (sample_tracking 0)
      (sample_imu 48000)).tracker.last_data = (sample_tracking 0).last_data :=
  ⟨rfl,
   ((last_data_written_once sample_externals sample_tracker (sample_imu 7)).1 rfl).2,
   by decide,
   (last_data_written_once sample_externals (sample_tracking 0) (sample_imu 48000)).2
     (by decide)⟩

/-- C14, the code at the failing input: the fresh sample tracker receives a first
IMU sample whose `datamask` field is 0.  The call returns, but the marker
`last_data.datamask` is still 0, so the next IMU sample, one millisecond later, takes
the seeding path again: it drives the estimator not at all, and only stores the
sample and the timestamps.  After a first sample with `datamask` 3 the same second
sample is fused: the estimator is driven twice with the elapsed time 1/1000. -/
theorem unmasked_first_sample_not_tracking :
    sample_tracker.last_data.datamask = 0 ∧
    (survive_imu_tracker_integrate_imu sample_externals sample_tracker
      (sample_imu_unmasked 7)).faulted = false ∧
    (survive_imu_tracker_integrate_imu sample_externals sample_tracker
      (sample_imu_unmasked 7)).tracker.last_data.datamask = 0 ∧
    (survive_imu_tracker_integrate_imu sample_externals
      (survive_imu_tracker_integrate_imu sample_externals sample_tracker
        (sample_imu_unmasked 7)).tracker (sample_imu 48007)).log = [] ∧
    (survive_imu_tracker_integrate_imu sample_externals
      (survive_imu_tracker_integrate_imu sample_externals sample_tracker
        (sample_imu_unmasked 7)).tracker (sample_imu 48007)).tracker =
      { (survive_imu_tracker_integrate_imu sample_externals sample_tracker
          (sample_imu_unmasked 7)).tracker with
        last_data := sample_imu 48007
        imu_kalman_update := 48007
        obs_kalman_update := 48007 } ∧
    predict_times (survive_imu_tracker_integrate_imu sample_externals (sample_tracking 7)
      (sample_imu 48007)).log = [1 / 1000, 1 / 1000] := by
  refine ⟨rfl, rfl, rfl, rfl, rfl, ?_⟩
  set_option maxRecDepth 8000 in with_unfolding_all decide

/-- The seeding block leaves a Tracking tracker as it is. -/
theorem observation_seed_tracking (t : SurviveIMUTracker) (tc : survive_timecode)
    (h : t.last_data.datamask ≠ 0) : observation_seed t tc = t := by
  unfold observation_seed
  rw [if_neg h]

/-- C20: when the IMU entry point faults, the tracker is exactly as before the call
and neither the estimator nor the pre-filter has been run.  When the
pose-observation entry point faults (nonzero tick frequency, zero tick difference
between equal timecodes), the tracker was already initialized, the tracker is
exactly as before the call and the estimator has not been run: on an uninitialized
tracker the seeding writes make the elapsed time 0 and the check cannot fail. -/
theorem fault_atomicity (ext : Externals) (t : SurviveIMUTracker) (d : PoserDataIMU)
    (tc : survive_timecode) (pose : SurvivePose) (R : List FLT) :
    ((survive_imu_tracker_integrate_imu ext t d).faulted = true →
      (survive_imu_tracker_integrate_imu ext t d).tracker = t ∧
      predict_times (survive_imu_tracker_integrate_imu ext t d).log = [] ∧
      (survive_imu_tracker_integrate_imu ext t d).log.filter Event.isMahony = []) ∧
    (t.so.timebase_hz ≠ 0 → (∀ a, ext.survive_timecode_difference a a = 0) →
      (survive_imu_tracker_integrate_observation ext tc t pose R).faulted = true →
      t.last_data.datamask ≠ 0 ∧
      (survive_imu_tracker_integrate_observation ext tc t pose R).tracker = t ∧
      (survive_imu_tracker_integrate_observation ext tc t pose R).log = []) := by
  constructor
  · by_cases h : t.last_data.datamask = 0
    · rw [integrate_imu_first ext t d h]
      exact fun hf => Bool.noConfusion hf
    · by_cases hdt : elapsed ext t.so d.timecode t.imu_kalman_update > 0
      · by_cases h1 : elapsed ext t.so d.timecode t.imu_kalman_update > 1
        · by_cases h10 : elapsed ext t.so d.timecode t.imu_kalman_update < 10
          · rw [integrate_imu_warned ext t d h hdt h1 h10, integrate_imu_fuse_faulted]
            exact fun hf => Bool.noConfusion hf
          · rw [integrate_imu_too_long ext t d h hdt h1 h10]
            exact fun _ => ⟨rfl, rfl, rfl⟩
        · rw [integrate_imu_plain ext t d h hdt h1, integrate_imu_fuse_faulted]
          exact fun hf => Bool.noConfusion hf
      · rw [integrate_imu_nonpositive ext t d h hdt]
        exact fun _ => ⟨rfl, rfl, rfl⟩
  · intro _ hdiff
    by_cases h : elapsed ext (observation_seed t tc).so tc
          (observation_seed t tc).obs_kalman_update ≥ 0 ∧
        elapsed ext (observation_seed t tc).so tc (observation_seed t tc).obs_kalman_update < 10
    · rw [integrate_observation_ok ext tc t pose R h]
      exact fun hf => Bool.noConfusion hf
    · have hmask : t.last_data.datamask ≠ 0 := by
        intro h0
        apply h
        rw [observation_seed_clock, observation_seed_so, if_pos h0,
          elapsed_self ext t.so hdiff tc]
        norm_num
      rw [integrate_observation_fault ext tc t pose R h]
      exact fun _ => ⟨hmask, observation_seed_tracking t tc hmask, rfl⟩

/-- C20 at concrete inputs: the Tracking sample tracker (first sample at timecode
100) faults on an IMU sample with the same timecode, and on a pose observation ten
time units later; both leave it as it was. -/
theorem fault_atomicity_witness :
    (survive_imu_tracker_integrate_imu sample_externals (sample_tracking 100)
      (sample_imu 100)).faulted = true ∧
    (survive_imu_tracker_integrate_imu sample_externals (sample_tracking 100)
      (sample_imu 100)).tracker = sample_tracking 100 ∧
    (sample_tracking 100).so.timebase_hz ≠ 0 ∧
    (∀ a, sample_externals.survive_timecode_difference a a = 0) ∧
    (survive_imu_tracker_integrate_observation sample_externals 480000100 (sample_tracking 100)
      sample_pose [1, 1]).faulted = true ∧
    (survive_imu_tracker_integrate_observation sample_externals 480000100 (sample_tracking 100)
      sample_pose [1, 1]).tracker = sample_tracking 100 := by
  have h1 : (survive_imu_tracker_integrate_imu sample_externals (sample_tracking 100)
      (sample_imu 100)).faulted = true := by with_unfolding_all decide
  have hz : (sample_tracking 100).so.timebase_hz ≠ 0 := by decide
  have hdiff : ∀ a, sample_externals.survive_timecode_difference a a = 0 :=
    fun a => by simp [sample_externals]
  have h2 : (survive_imu_tracker_integrate_observation sample_externals 480000100
      (sample_tracking 100) sample_pose [1, 1]).faulted = true := by
    with_unfolding_all decide
  exact ⟨h1,
    ((fault_atomicity sample_externals (sample_tracking 100) (sample_imu 100) 480000100
      sample_pose [1, 1]).1 h1).1,
    hz, hdiff, h2,
    ((fault_atomicity sample_externals (sample_tracking 100) (sample_imu 100) 480000100
      sample_pose [1, 1]).2 hz hdiff h2).2.1⟩

end Survive
